import Mathlib

/-!
Verification development for the token-matching and value-transformation
engine of the optics-mcp design-token server.

The TypeScript sources are embedded shallowly:
  - src/utils/css-parser.ts   (value extraction, exact token matching)
  - src/index.ts color block  (hexToRgb, rgbStringToRgb, parseColor,
                               relative luminance, contrast)
  - src/tools/accessibility.ts (checkTokenContrast, checkAllCombinations)
  - the migration helper      (detectValueType, calculateSimilarity,
                               suggestTokenMigration)
  - the validation helper     (suggestTokenForValue)
  - src/tools/replace.ts      (replaceHardCodedValues)
  - src/tools/theme-generator.ts (hexToHSL, generateColorTokens,
                               generateTheme token assembly)
  - src/optics-data.ts        (the static designTokens catalog)

JavaScript regular-expression scans are embedded as explicit left-to-right
scanners specialised to the exact pattern in the source, including the
source patterns that are broken (a regex literal written with a doubled
backslash turns the digit class into the literal character class
containing a backslash, the letter d and the dot).

JavaScript numbers are modelled as rationals; the only non-rational
operation in the engine, the power x ** 2.4 inside the WCAG gamma decode,
is taken as an explicit function parameter (rpow) so that every theorem
about the surrounding control flow holds for every instantiation of it.
A JavaScript NaN outcome is modelled as the none case of an Option.
-/

namespace OCS

/-! ## JavaScript character and string primitives -/

/-- The JavaScript whitespace class (the set matched by the regex class
backslash-s and skipped by parseInt, parseFloat and String.trim), given
by code point: space 32, tab 9, line feed 10, carriage return 13,
vertical tab 11, form feed 12, and the Unicode space code points. -/
def isJsSpace (c : Char) : Bool :=
  c.toNat == 32 || c.toNat == 9 || c.toNat == 10 || c.toNat == 13 ||
  c.toNat == 11 || c.toNat == 12 || c.toNat == 160 || c.toNat == 0x1680 ||
  (decide (0x2000 ≤ c.toNat) && decide (c.toNat ≤ 0x200A)) ||
  c.toNat == 0x2028 || c.toNat == 0x2029 || c.toNat == 0x202F ||
  c.toNat == 0x205F || c.toNat == 0xFEFF || c.toNat == 0x3000

/-- A JavaScript regex word character (the class matched by backslash-w),
used for the word-boundary assertion. -/
def isWordChar (c : Char) : Bool :=
  c.isAlphanum || c == '_'

/-- A hexadecimal digit character. -/
def isHexDigitChar (c : Char) : Bool :=
  c.isDigit || (decide ('a' ≤ c) && decide (c ≤ 'f')) ||
  (decide ('A' ≤ c) && decide (c ≤ 'F'))

/-- Numeric value of a hexadecimal digit character. -/
def hexVal (c : Char) : Nat :=
  if c.isDigit then c.toNat - 48
  else if decide ('a' ≤ c) && decide (c ≤ 'f') then c.toNat - 87
  else c.toNat - 55

/-- JavaScript String.prototype.trim on a character list. -/
def jsTrim (cs : List Char) : List Char :=
  ((cs.dropWhile isJsSpace).reverse.dropWhile isJsSpace).reverse

/-- Natural number denoted by a list of decimal digit characters. -/
def natOfDigits (cs : List Char) : Nat :=
  cs.foldl (fun acc c => 10 * acc + (c.toNat - 48)) 0

/-- Integer denoted by a list of hexadecimal digit characters. -/
def natOfHexDigits (cs : List Char) : Nat :=
  cs.foldl (fun acc c => 16 * acc + hexVal c) 0

/-- JavaScript parseInt(s, 16): skip whitespace, optional sign, optional
0x or 0X marker, then the longest run of hexadecimal digits; NaN (none)
when that run is empty.  Used by hexToRgb and hexToHSL on two-character
channel groups; parseInt keeps the parsed value even when trailing
characters are invalid. -/
def parseIntHexCore (cs : List Char) : Option Int :=
  let cs := cs.dropWhile isJsSpace
  let signAndRest : Int × List Char :=
    match cs with
    | '-' :: rest => (-1, rest)
    | '+' :: rest => (1, rest)
    | _ => (1, cs)
  let rest1 :=
    match signAndRest.2 with
    | '0' :: 'x' :: rest => rest
    | '0' :: 'X' :: rest => rest
    | _ => signAndRest.2
  let digits := rest1.takeWhile isHexDigitChar
  if digits.isEmpty then none
  else some (signAndRest.1 * (natOfHexDigits digits : Int))

/-- parseInt with radix 16 on a string. -/
def parseIntHexStr (s : String) : Option Int :=
  parseIntHexCore s.data

/-- JavaScript parseInt(s) with the default radix 10. -/
def parseIntDecCore (cs : List Char) : Option Int :=
  let cs := cs.dropWhile isJsSpace
  let signAndRest : Int × List Char :=
    match cs with
    | '-' :: rest => (-1, rest)
    | '+' :: rest => (1, rest)
    | _ => (1, cs)
  let digits := signAndRest.2.takeWhile Char.isDigit
  if digits.isEmpty then none
  else some (signAndRest.1 * (natOfDigits digits : Int))

/-- parseInt with the default radix on a string. -/
def parseIntDecStr (s : String) : Option Int :=
  parseIntDecCore s.data

/-- Exponent clause of a JavaScript float literal: optional sign then at
least one decimal digit. -/
def parseExpoCore (cs : List Char) : Option Int :=
  let signAndRest : Int × List Char :=
    match cs with
    | '-' :: rest => (-1, rest)
    | '+' :: rest => (1, rest)
    | _ => (1, cs)
  let digits := signAndRest.2.takeWhile Char.isDigit
  if digits.isEmpty then none
  else some (signAndRest.1 * (natOfDigits digits : Int))

/-- JavaScript parseFloat: skip whitespace, optional sign, decimal
mantissa with at least one digit, optional well-formed exponent; a
malformed exponent is ignored, keeping the mantissa. NaN is none. -/
def parseFloatCore (cs : List Char) : Option ℚ :=
  let cs := cs.dropWhile isJsSpace
  let signAndRest : ℚ × List Char :=
    match cs with
    | '-' :: rest => (-1, rest)
    | '+' :: rest => (1, rest)
    | _ => (1, cs)
  let intPart := signAndRest.2.takeWhile Char.isDigit
  let cs1 := signAndRest.2.dropWhile Char.isDigit
  let fracAndRest : List Char × List Char :=
    match cs1 with
    | '.' :: rest => (rest.takeWhile Char.isDigit, rest.dropWhile Char.isDigit)
    | _ => ([], cs1)
  if intPart.isEmpty && fracAndRest.1.isEmpty then none
  else
    let mantissa : ℚ :=
      (natOfDigits intPart : ℚ) +
        (natOfDigits fracAndRest.1 : ℚ) / (10 ^ fracAndRest.1.length : ℚ)
    let expo : Option Int :=
      match fracAndRest.2 with
      | e :: rest => if e == 'e' || e == 'E' then parseExpoCore rest else none
      | [] => none
    match expo with
    | some k => some (signAndRest.1 * mantissa * (10 : ℚ) ^ k)
    | none => some (signAndRest.1 * mantissa)

/-- parseFloat on a string. -/
def parseFloatStr (s : String) : Option ℚ :=
  parseFloatCore s.data

/-- JavaScript Math.round: round half toward positive infinity. -/
def jsRound (x : ℚ) : ℤ :=
  ⌊x + 1 / 2⌋

/-! ## Data model (src/optics-data.ts) -/

/-- A design token record: interface DesignToken of optics-data.ts. -/
structure DesignToken where
  name : String
  value : String
  category : String
  description : Option String := none
deriving DecidableEq, Repr

/-! ## Value extraction (src/utils/css-parser.ts)

Each extractor embeds the global regex scan of the source: the scanner
tries to match at every position from left to right and, after a match,
resumes immediately after the matched text (exec with the g flag). -/

/-- The kind tag of an extracted value: the type union of interface
CSSValue in css-parser.ts. -/
inductive CSSType where
  | color
  | spacing
  | fontSize
  | fontWeight
  | fontFamily
  | borderRadius
  | shadow
  | unknown
deriving DecidableEq, Repr

/-- An extracted value: interface CSSValue of css-parser.ts. -/
structure CSSValue where
  type : CSSType
  value : String
  line : Option Nat := none
  property : Option String := none
deriving DecidableEq, Repr

/-- Left-to-right global regex scan: try the matcher at each position;
on success record the result and resume after the match, otherwise
advance one character.  Every matcher below consumes at least one
character, so fuel equal to the input length suffices. -/
def scanWith (m : List Char → Option (α × List Char)) :
    Nat → List Char → List α
  | 0, _ => []
  | _ + 1, [] => []
  | fuel + 1, c :: rest =>
    match m (c :: rest) with
    | some (v, remaining) => v :: scanWith m fuel remaining
    | none => scanWith m fuel rest

/-- Run a scan over a whole string. -/
def scanString (m : List Char → Option (α × List Char)) (s : String) :
    List α :=
  scanWith m (s.data.length + 1) s.data

/-- Case-insensitive literal match (the literal is given in lower case);
returns the characters as they appear in the input together with the
rest of the input. -/
def matchCI : List Char → List Char → Option (List Char × List Char)
  | [], cs => some ([], cs)
  | _ :: _, [] => none
  | l :: ls, c :: cs =>
    if c.toLower == l then
      match matchCI ls cs with
      | some (txt, rest) => some (c :: txt, rest)
      | none => none
    else none

/-- First alternative of a case-insensitive alternation that matches,
in the order they appear in the pattern. -/
def matchAltCI : List (List Char) → List Char → Option (List Char × List Char)
  | [], _ => none
  | a :: as, cs =>
    match matchCI a cs with
    | some r => some r
    | none => matchAltCI as cs

/-- Matcher for the hex colour pattern of extractColors:
hash, three to six hex digits (greedy), then a word boundary.  The
character before the boundary is always a hex digit, hence a word
character, so the boundary holds exactly when the next character is
absent or not a word character. -/
def matchHexColor : List Char → Option (String × List Char)
  | '#' :: rest =>
    let digits := rest.takeWhile isHexDigitChar
    let ok : Nat → Bool := fun k =>
      decide (k ≤ digits.length) &&
        (match (rest.drop k).head? with
         | some c => !isWordChar c
         | none => true)
    let pick : Option Nat :=
      if ok 6 then some 6 else if ok 5 then some 5
      else if ok 4 then some 4 else if ok 3 then some 3 else none
    match pick with
    | some k => some (String.mk ('#' :: digits.take k), rest.drop k)
    | none => none
  | _ => none

/-- Matcher for the rgb and rgba call pattern of extractColors:
the letters rgb, an optional a, an opening parenthesis, at least one
character that is not a closing parenthesis, then a closing
parenthesis. -/
def matchRgbCall (cs : List Char) : Option (String × List Char) :=
  match cs with
  | 'r' :: 'g' :: 'b' :: rest =>
    let afterA : List Char × List Char :=
      match rest with
      | 'a' :: rest2 => (['a'], rest2)
      | _ => ([], rest)
    match afterA.2 with
    | '(' :: rest3 =>
      let inner := rest3.takeWhile (fun c => !(c == ')'))
      if inner.isEmpty then none
      else
        match rest3.drop inner.length with
        | ')' :: rest4 =>
          some (String.mk ('r' :: 'g' :: 'b' :: afterA.1 ++ '(' :: inner ++ [')']),
            rest4)
        | _ => none
    | _ => none
  | _ => none

/-- extractColors of css-parser.ts: the hex scan over the whole text,
then the rgb scan over the whole text. -/
def extractColors (css : String) : List CSSValue :=
  (scanString matchHexColor css).map
    (fun v => { type := CSSType.color, value := v }) ++
  (scanString matchRgbCall css).map
    (fun v => { type := CSSType.color, value := v })

/-- The spacing property alternation of extractSpacing, in source
order. -/
def spacingProps : List (List Char) :=
  ["padding".data, "margin".data, "gap".data, "width".data, "height".data,
   "top".data, "bottom".data, "left".data, "right".data]

/-- The unit alternation px, rem, em (case-insensitive), returning the
unit text as it appears in the input. -/
def matchUnitPxRemEm (cs : List Char) : Option (List Char × List Char) :=
  matchAltCI ["px".data, "rem".data, "em".data] cs

/-- Matcher for the extractSpacing pattern: a spacing property name,
a colon, whitespace, a digits-and-dots run, and a px, rem or em unit
(the whole scan is case-insensitive).  The digit class and the unit
class are disjoint, so the greedy run is the maximal one. -/
def matchSpacing (cs : List Char) : Option (CSSValue × List Char) :=
  match matchAltCI spacingProps cs with
  | none => none
  | some (propTxt, rest1) =>
    match rest1 with
    | ':' :: rest2 =>
      let rest3 := rest2.dropWhile isJsSpace
      let digits := rest3.takeWhile (fun c => c.isDigit || c == '.')
      if digits.isEmpty then none
      else
        match matchUnitPxRemEm (rest3.drop digits.length) with
        | some (unitTxt, rest4) =>
          some ({ type := CSSType.spacing,
                  value := String.mk (digits ++ unitTxt),
                  property := some (String.mk propTxt) }, rest4)
        | none => none
    | _ => none

/-- extractSpacing of css-parser.ts. -/
def extractSpacing (css : String) : List CSSValue :=
  scanString matchSpacing css

/-- The broken value class of the font-size, and border-radius regex
literals: the source writes a doubled backslash inside a regex literal,
so the class matches only a backslash, the letter d (case-insensitive
under the i flag) or a dot, never a decimal digit. -/
def isBrokenDigitClass (c : Char) : Bool :=
  c == '\\' || c.toLower == 'd' || c == '.'

/-- Matcher for the extractFontSizes pattern of css-parser.ts: the text
font-size, a colon, whitespace, then at least one character of the
broken class above, then a px, rem or em unit. -/
def matchFontSize (cs : List Char) : Option (CSSValue × List Char) :=
  match matchCI "font-size".data cs with
  | none => none
  | some (_, rest1) =>
    match rest1 with
    | ':' :: rest2 =>
      let rest3 := rest2.dropWhile isJsSpace
      let body := rest3.takeWhile isBrokenDigitClass
      if body.isEmpty then none
      else
        match matchUnitPxRemEm (rest3.drop body.length) with
        | some (unitTxt, rest4) =>
          some ({ type := CSSType.fontSize,
                  value := String.mk (body ++ unitTxt),
                  property := some "font-size" }, rest4)
        | none => none
    | _ => none

/-- extractFontSizes of css-parser.ts. -/
def extractFontSizes (css : String) : List CSSValue :=
  scanString matchFontSize css

/-- Matcher for the extractFontWeights pattern: the text font-weight, a
colon, whitespace, then the alternation whose first branch is the broken
escape (a literal backslash followed by three letters d) and whose other
branches are the keywords, tried in source order. -/
def matchFontWeight (cs : List Char) : Option (CSSValue × List Char) :=
  match matchCI "font-weight".data cs with
  | none => none
  | some (_, rest1) =>
    match rest1 with
    | ':' :: rest2 =>
      let rest3 := rest2.dropWhile isJsSpace
      let body : Option (List Char × List Char) :=
        match rest3 with
        | '\\' :: d1 :: d2 :: d3 :: rest4 =>
          if d1.toLower == 'd' && d2.toLower == 'd' && d3.toLower == 'd' then
            some (['\\', d1, d2, d3], rest4)
          else
            matchAltCI ["normal".data, "bold".data, "lighter".data,
              "bolder".data] rest3
        | _ =>
          matchAltCI ["normal".data, "bold".data, "lighter".data,
            "bolder".data] rest3
      match body with
      | some (txt, rest4) =>
        some ({ type := CSSType.fontWeight,
                value := String.mk txt,
                property := some "font-weight" }, rest4)
      | none => none
    | _ => none

/-- extractFontWeights of css-parser.ts. -/
def extractFontWeights (css : String) : List CSSValue :=
  scanString matchFontWeight css

/-- Matcher for the extractFontFamilies pattern: the text font-family, a
colon, whitespace, then at least one character that is not a semicolon;
the captured group is trimmed. -/
def matchFontFamily (cs : List Char) : Option (CSSValue × List Char) :=
  match matchCI "font-family".data cs with
  | none => none
  | some (_, rest1) =>
    match rest1 with
    | ':' :: rest2 =>
      let rest3 := rest2.dropWhile isJsSpace
      let inner := rest3.takeWhile (fun c => !(c == ';'))
      if inner.isEmpty then none
      else
        some ({ type := CSSType.fontFamily,
                value := String.mk (jsTrim inner),
                property := some "font-family" }, rest3.drop inner.length)
    | _ => none

/-- extractFontFamilies of css-parser.ts.  The source pattern has no
whitespace skip of its own; the captured group starts right after the
colon, and leading whitespace is removed by the trim.  The matcher above
skips it before capturing, which yields the same trimmed value and the
same scan positions because the skipped characters cannot contain a
semicolon or a match start. -/
def extractFontFamilies (css : String) : List CSSValue :=
  scanString matchFontFamily css

/-- Matcher for the extractBorderRadius pattern: like font-size (with
the same broken digit class) with the percent sign as an extra unit. -/
def matchBorderRadius (cs : List Char) : Option (CSSValue × List Char) :=
  match matchCI "border-radius".data cs with
  | none => none
  | some (_, rest1) =>
    match rest1 with
    | ':' :: rest2 =>
      let rest3 := rest2.dropWhile isJsSpace
      let body := rest3.takeWhile isBrokenDigitClass
      if body.isEmpty then none
      else
        match matchAltCI ["px".data, "rem".data, "em".data, "%".data]
            (rest3.drop body.length) with
        | some (unitTxt, rest4) =>
          some ({ type := CSSType.borderRadius,
                  value := String.mk (body ++ unitTxt),
                  property := some "border-radius" }, rest4)
        | none => none
    | _ => none

/-- extractBorderRadius of css-parser.ts. -/
def extractBorderRadius (css : String) : List CSSValue :=
  scanString matchBorderRadius css

/-- Matcher for the extractShadows pattern: the text box-shadow, a
colon, whitespace, then at least one character that is not a semicolon,
trimmed. -/
def matchShadow (cs : List Char) : Option (CSSValue × List Char) :=
  match matchCI "box-shadow".data cs with
  | none => none
  | some (_, rest1) =>
    match rest1 with
    | ':' :: rest2 =>
      let rest3 := rest2.dropWhile isJsSpace
      let inner := rest3.takeWhile (fun c => !(c == ';'))
      if inner.isEmpty then none
      else
        some ({ type := CSSType.shadow,
                value := String.mk (jsTrim inner),
                property := some "box-shadow" }, rest3.drop inner.length)
    | _ => none

/-- extractShadows of css-parser.ts. -/
def extractShadows (css : String) : List CSSValue :=
  scanString matchShadow css

/-- extractAllValues of css-parser.ts: the seven extractions
concatenated in source order. -/
def extractAllValues (css : String) : List CSSValue :=
  extractColors css ++ extractSpacing css ++ extractFontSizes css ++
  extractFontWeights css ++ extractFontFamilies css ++
  extractBorderRadius css ++ extractShadows css

/-- The normalisation of findMatchingToken: lower-case, then delete all
whitespace (the global replace of a whitespace run by the empty
string). -/
def normalizeValue (v : String) : String :=
  String.mk ((v.data.map Char.toLower).filter (fun c => !isJsSpace c))

/-- findMatchingToken of css-parser.ts: the first token in catalog order
whose normalised stored value equals the normalised query, if any. -/
def findMatchingToken (value : String) : List DesignToken → Option String
  | [] => none
  | t :: ts =>
    if normalizeValue t.value == normalizeValue value then some t.name
    else findMatchingToken value ts

/-! ## Colour utilities (the colour block of src/index.ts) -/

/-- An RGB record: interface RGB.  parseInt can return values outside
0 to 255 for malformed channel groups, so the channels are integers. -/
structure RGB where
  r : Int
  g : Int
  b : Int
deriving DecidableEq, Repr

/-- Strip one leading hash: the anchored replace of hexToRgb. -/
def stripLeadHash (cs : List Char) : List Char :=
  match cs with
  | '#' :: rest => rest
  | _ => cs

/-- hexToRgb of src/index.ts: strip a leading hash, double each
character of a three-character string, require length six, then parse
the three two-character groups with parseInt radix 16, failing only when
a group yields NaN. -/
def hexToRgb (hex : String) : Option RGB :=
  let cs := stripLeadHash hex.data
  let cs := if cs.length == 3 then (cs.map (fun c => [c, c])).flatten else cs
  if cs.length == 6 then
    match parseIntHexCore (cs.take 2), parseIntHexCore ((cs.drop 2).take 2),
        parseIntHexCore ((cs.drop 4).take 2) with
    | some r, some g, some b => some { r := r, g := g, b := b }
    | _, _, _ => none
  else none

/-- Matcher for the unanchored pattern of rgbStringToRgb: the letters
rgb, an optional a, an opening parenthesis, then three decimal digit
runs separated by a comma and optional whitespace. -/
def matchRgbTriple (cs : List Char) : Option ((Nat × Nat × Nat) × List Char) :=
  match cs with
  | 'r' :: 'g' :: 'b' :: rest =>
    let afterA : List Char :=
      match rest with
      | 'a' :: rest2 => rest2
      | _ => rest
    match afterA with
    | '(' :: rest3 =>
      let d1 := rest3.takeWhile Char.isDigit
      if d1.isEmpty then none
      else
        match rest3.drop d1.length with
        | ',' :: rest4 =>
          let rest5 := rest4.dropWhile isJsSpace
          let d2 := rest5.takeWhile Char.isDigit
          if d2.isEmpty then none
          else
            match rest5.drop d2.length with
            | ',' :: rest6 =>
              let rest7 := rest6.dropWhile isJsSpace
              let d3 := rest7.takeWhile Char.isDigit
              if d3.isEmpty then none
              else
                some ((natOfDigits d1, natOfDigits d2, natOfDigits d3),
                  rest7.drop d3.length)
            | _ => none
        | _ => none
    | _ => none
  | _ => none

/-- Find the first position where a matcher succeeds (String.prototype
.match with a non-global regex). -/
def findFirstMatch (m : List Char → Option (α × List Char)) :
    Nat → List Char → Option α
  | 0, _ => none
  | _ + 1, [] => none
  | fuel + 1, c :: rest =>
    match m (c :: rest) with
    | some (v, _) => some v
    | none => findFirstMatch m fuel rest

/-- rgbStringToRgb of src/index.ts: first match of the rgb triple
pattern anywhere in the string; the three digit runs are parsed with
parseInt. -/
def rgbStringToRgb (s : String) : Option RGB :=
  match findFirstMatch matchRgbTriple (s.data.length + 1) s.data with
  | some (a, b, c) => some { r := (a : Int), g := (b : Int), b := (c : Int) }
  | none => none

/-- Leading-text test used by parseColor (String.prototype.startsWith). -/
def startsWithLit : List Char → List Char → Bool
  | [], _ => true
  | _ :: _, [] => false
  | l :: ls, c :: cs => c == l && startsWithLit ls cs

/-- parseColor of src/index.ts: trim, then hex parsing when the text
starts with a hash, rgb parsing when it starts with rgb, otherwise
failure. -/
def parseColor (color : String) : Option RGB :=
  let trimmed := jsTrim color.data
  if startsWithLit "#".data trimmed then hexToRgb (String.mk trimmed)
  else if startsWithLit "rgb".data trimmed then
    rgbStringToRgb (String.mk trimmed)
  else none

/-- One channel of the WCAG gamma decode of getRelativeLuminance.  The
non-rational power x ** 2.4 is the parameter rpow; every theorem below
holds for every instantiation of it. -/
def gammaChannel (rpow : ℚ → ℚ) (v : ℚ) : ℚ :=
  if v ≤ 3928 / 100000 then v / (1292 / 100)
  else rpow ((v + 55 / 1000) / (1055 / 1000))

/-- getRelativeLuminance of src/index.ts with ITU-R BT.709 weights. -/
def getRelativeLuminance (rpow : ℚ → ℚ) (rgb : RGB) : ℚ :=
  2126 / 10000 * gammaChannel rpow ((rgb.r : ℚ) / 255) +
  7152 / 10000 * gammaChannel rpow ((rgb.g : ℚ) / 255) +
  722 / 10000 * gammaChannel rpow ((rgb.b : ℚ) / 255)

/-- getContrastRatio of src/index.ts: parse both colours, then the WCAG
quotient of the lighter and darker luminances, offset by 0.05. -/
def getContrastRatio (rpow : ℚ → ℚ) (c1 c2 : String) : Option ℚ :=
  match parseColor c1, parseColor c2 with
  | some rgb1, some rgb2 =>
    let l1 := getRelativeLuminance rpow rgb1
    let l2 := getRelativeLuminance rpow rgb2
    some ((max l1 l2 + 5 / 100) / (min l1 l2 + 5 / 100))
  | _, _ => none

/-- A contrast record: interface ContrastResult of src/index.ts.  The
field contrastValue embeds the source field named ratio. -/
structure ContrastResult where
  contrastValue : ℚ
  wcagAA : Bool
  wcagAAA : Bool
  score : String
deriving DecidableEq, Repr

/-- checkContrast of src/index.ts: none when either colour is
unparseable; otherwise the AA and AAA comparisons use the full-precision
quotient while the reported value is rounded to two decimals. -/
def checkContrast (rpow : ℚ → ℚ) (foreground background : String) :
    Option ContrastResult :=
  match getContrastRatio rpow foreground background with
  | none => none
  | some q =>
    let wcagAA : Bool := decide ((45 : ℚ) / 10 ≤ q)
    let wcagAAA : Bool := decide ((7 : ℚ) ≤ q)
    some { contrastValue := (jsRound (q * 100) : ℚ) / 100,
           wcagAA := wcagAA,
           wcagAAA := wcagAAA,
           score := if wcagAAA then "AAA" else if wcagAA then "AA" else "fail" }

/-! ## Accessibility checker (src/tools/accessibility.ts) -/

/-- A structured contrast check outcome: interface ContrastCheckResult.
The source leaves the recommendation absent only before assignment; it
is set in every return, so it is embedded as a plain string. -/
structure ContrastCheckResult where
  foregroundToken : String
  backgroundToken : String
  foregroundValue : String
  backgroundValue : String
  contrast : Option ContrastResult
  passes : Bool
  recommendation : String
deriving DecidableEq, Repr

/-- findBetterTokenCombination of accessibility.ts: scan the colour
tokens in catalog order and return the first whose contrast against the
same background passes AA, as a human-readable suggestion. -/
def findBetterTokenCombination (rpow : ℚ → ℚ) (allTokens : List DesignToken)
    (backgroundValue : String) : String :=
  let colorTokens := allTokens.filter (fun t => t.category == "color")
  match colorTokens.find? (fun t =>
      match checkContrast rpow t.value backgroundValue with
      | some c => c.wcagAA
      | none => false) with
  | some t =>
    "Try using " ++ t.name ++ " (" ++ t.value ++ ") for better contrast"
  | none => "No alternative tokens found with sufficient contrast"

/-- checkTokenContrast of accessibility.ts: resolve both names with the
first-match catalog lookup, report a token-not-found outcome when either
is absent, a diagnostic outcome when the contrast is uncomputable, and
otherwise the computed contrast with a remedy search on AA failure. -/
def checkTokenContrast (rpow : ℚ → ℚ) (foregroundToken backgroundToken : String)
    (tokens : List DesignToken) : ContrastCheckResult :=
  match tokens.find? (fun t => t.name == foregroundToken),
      tokens.find? (fun t => t.name == backgroundToken) with
  | some fgToken, some bgToken =>
    match checkContrast rpow fgToken.value bgToken.value with
    | none =>
      { foregroundToken := foregroundToken,
        backgroundToken := backgroundToken,
        foregroundValue := fgToken.value,
        backgroundValue := bgToken.value,
        contrast := none,
        passes := false,
        recommendation := "Unable to calculate contrast (non-color tokens?)" }
    | some contrast =>
      { foregroundToken := foregroundToken,
        backgroundToken := backgroundToken,
        foregroundValue := fgToken.value,
        backgroundValue := bgToken.value,
        contrast := some contrast,
        passes := contrast.wcagAA,
        recommendation :=
          if contrast.wcagAA then ""
          else findBetterTokenCombination rpow tokens bgToken.value }
  | _, _ =>
    { foregroundToken := foregroundToken,
      backgroundToken := backgroundToken,
      foregroundValue := "",
      backgroundValue := "",
      contrast := none,
      passes := false,
      recommendation := "Token not found" }

/-- The sort comparator of checkAllCombinations: zero when either result
lacks a contrast, otherwise the descending difference of the reported
values. -/
def combinationCmp (a b : ContrastCheckResult) : ℚ :=
  match a.contrast, b.contrast with
  | some x, some y => y.contrastValue - x.contrastValue
  | _, _ => 0

/-- Stable insertion with respect to a pairwise comparator: the new
element is placed before the first earlier element that must come after
it.  ECMAScript leaves the order unspecified when the comparator is
inconsistent; this is one stable realisation, and the claims below only
rely on it through the empty case. -/
def insertByCmp (cmp : α → α → ℚ) (x : α) : List α → List α
  | [] => [x]
  | y :: ys => if 0 < cmp y x then x :: y :: ys else y :: insertByCmp cmp x ys

/-- Stable comparator sort realised by left-to-right insertion. -/
def sortByCmp (cmp : α → α → ℚ) (l : List α) : List α :=
  l.foldl (fun acc x => insertByCmp cmp x acc) []

/-- checkAllCombinations of accessibility.ts: empty when the background
name has no catalog entry; otherwise every other colour token checked as
foreground, sorted by the comparator above. -/
def checkAllCombinations (rpow : ℚ → ℚ) (backgroundToken : String)
    (tokens : List DesignToken) : List ContrastCheckResult :=
  match tokens.find? (fun t => t.name == backgroundToken) with
  | none => []
  | some _ =>
    let colorTokens := tokens.filter
      (fun t => t.category == "color" && !(t.name == backgroundToken))
    let results := colorTokens.map
      (fun fgToken => checkTokenContrast rpow fgToken.name backgroundToken tokens)
    sortByCmp combinationCmp results

/-! ## Migration helper (the token migration module) -/

/-- Anchored test: hash then three to six hex digits and nothing else. -/
def isAnchoredHexColor (cs : List Char) : Bool :=
  match cs with
  | '#' :: rest =>
    rest.all isHexDigitChar && decide (3 ≤ rest.length) &&
      decide (rest.length ≤ 6)
  | _ => false

/-- Anchored test: at least one decimal digit then exactly the given
case-sensitive suffix. -/
def isDigitsThen (suffix : List Char) (cs : List Char) : Bool :=
  let digits := cs.takeWhile Char.isDigit
  !digits.isEmpty && cs.drop digits.length == suffix

/-- Anchored test for the number pattern: digits with an optional dot
and further digits. -/
def isNumberShape (cs : List Char) : Bool :=
  let digits := cs.takeWhile Char.isDigit
  !digits.isEmpty &&
    (match cs.drop digits.length with
     | [] => true
     | '.' :: rest => !rest.isEmpty && rest.all Char.isDigit
     | _ => false)

/-- Case-insensitive substring test (the unanchored shadow regex). -/
def containsCI (needle : List Char) : List Char → Bool
  | [] => needle.isEmpty
  | c :: cs =>
    startsWithLit needle (((c :: cs).map Char.toLower)) || containsCI needle cs

/-- detectValueType of the migration helper, with the source tests in
source order: hex or rgb colour, pixel, rem and em counts, the exact
three-digit font weights from 300 to 700, plain numbers, shadow text,
otherwise a plain string. -/
def detectValueType (value : String) : String :=
  let cs := value.data
  if isAnchoredHexColor cs || startsWithLit "rgb(".data cs ||
      startsWithLit "rgba(".data cs then "color"
  else if isDigitsThen "px".data cs then "pixels"
  else if isDigitsThen "rem".data cs then "rem"
  else if isDigitsThen "em".data cs then "em"
  else if (match cs with
           | d :: '0' :: '0' :: [] =>
             d == '3' || d == '4' || d == '5' || d == '6' || d == '7'
           | _ => false) then "font-weight"
  else if isNumberShape cs then "number"
  else if containsCI "shadow".data cs then "shadow"
  else "string"

/-- calculateSimilarity of the migration helper.  The result is an
optional rational: none embeds a JavaScript NaN, which arises in the
numeric branch when both magnitudes are zero (zero divided by zero), and
NaN fails every comparison downstream.  A positive difference over a
zero maximum is an infinity, which the final clamp turns into zero. -/
def calculateSimilarity (value1 value2 : String) (type : String) : Option ℚ :=
  if type == "color" then
    some (if String.mk (value1.data.map Char.toLower) ==
        String.mk (value2.data.map Char.toLower) then 1 else 0)
  else if type == "pixels" || type == "rem" || type == "em" then
    match parseFloatStr value1, parseFloatStr value2 with
    | some num1, some num2 =>
      let diff := |num1 - num2|
      let mx := max num1 num2
      if mx == 0 then (if diff == 0 then none else some 0)
      else some (max 0 (1 - diff / mx))
    | _, _ => none
  else if type == "font-weight" then
    match parseIntDecStr value1, parseIntDecStr value2 with
    | some num1, some num2 => some (if num1 == num2 then 1 else 1 / 2)
    | _, _ => some (1 / 2)
  else
    some (if value1 == value2 then 1 else 3 / 10)

/-- generateMigrationReason of the migration helper. -/
def generateMigrationReason (similarity : ℚ) : String :=
  if similarity == 1 then "Exact match"
  else if 9 / 10 < similarity then "Very close match"
  else if 7 / 10 < similarity then "Close match"
  else "Similar value"

/-- One migration suggestion entry: the element type of the
suggestedTokens array of interface MigrationSuggestion. -/
structure MigrationEntry where
  tokenName : String
  tokenValue : String
  category : String
  similarity : ℚ
  reason : String
deriving DecidableEq, Repr

/-- The candidate filter of suggestTokenMigration: a token contributes
an entry exactly when its detected value type equals the detected type
of the query and the similarity is a number strictly above one half. -/
def migrationEntryOf (oldValue : String) (t : DesignToken) :
    Option MigrationEntry :=
  let valueType := detectValueType oldValue
  if detectValueType t.value == valueType then
    match calculateSimilarity oldValue t.value valueType with
    | some s =>
      if 1 / 2 < s then
        some { tokenName := t.name, tokenValue := t.value,
               category := t.category, similarity := s,
               reason := generateMigrationReason s }
      else none
    | none => none
  else none

/-- The suggestions array of suggestTokenMigration before sorting, in
catalog order. -/
def migrationCandidates (oldValue : String) (tokens : List DesignToken) :
    List MigrationEntry :=
  tokens.filterMap (migrationEntryOf oldValue)

/-- Stable insertion for a descending sort on a rational key: the new
element goes after every earlier element whose key is at least its
own. -/
def insertDescBy (key : α → ℚ) (x : α) : List α → List α
  | [] => [x]
  | y :: ys => if key x ≤ key y then y :: insertDescBy key x ys
               else x :: y :: ys

/-- Stable descending sort on a rational key by left-to-right
insertion.  ECMAScript array sort is stable, so this computes the same
list as the source sort on the similarity difference comparator. -/
def sortDescBy (key : α → ℚ) (l : List α) : List α :=
  l.foldl (fun acc x => insertDescBy key x acc) []

/-- The outcome record of the migration helper: interface
MigrationSuggestion. -/
structure MigrationSuggestion where
  inputValue : String
  suggestedTokens : List MigrationEntry
deriving DecidableEq, Repr

/-- suggestTokenMigration of the migration helper, restricted by the
optional category, filtered by type equality and the similarity
threshold, sorted by descending similarity, and cut to the top five. -/
def suggestTokenMigration (oldValue : String) (tokens : List DesignToken)
    (category : Option String) : MigrationSuggestion :=
  let candidateTokens :=
    match category with
    | some c => tokens.filter (fun t => t.category == c)
    | none => tokens
  { inputValue := oldValue,
    suggestedTokens := (sortDescBy (fun e => e.similarity)
      (migrationCandidates oldValue candidateTokens)).take 5 }

/-! ## Validation helper (the token validation module) -/

/-- The category filter of suggestTokenForValue: which catalog tokens
fit an extracted value of each kind.  The font-family and unknown kinds
have no branch in the source and fit nothing. -/
def categoryFits (ty : CSSType) (t : DesignToken) : Bool :=
  match ty with
  | CSSType.color => t.category == "color"
  | CSSType.spacing => t.category == "spacing"
  | CSSType.fontSize => (t.name.splitOn "font-size").length != 1
  | CSSType.fontWeight => (t.name.splitOn "font-weight").length != 1
  | CSSType.borderRadius => t.category == "border"
  | CSSType.shadow => t.category == "shadow"
  | _ => false

/-- suggestTokenForValue of the validation helper: the first token of
the filtered list in catalog order, independent of numeric closeness,
or the fixed no-match message when the filtered list is empty. -/
def suggestTokenForValue (value : CSSValue) (tokens : List DesignToken) :
    String :=
  let categoryTokens := tokens.filter (categoryFits value.type)
  match categoryTokens with
  | [] => "No matching tokens found"
  | closest :: _ =>
    "Consider using token: " ++ closest.name ++ " (" ++ closest.value ++ ")"

/-! ## Replacement tool (src/tools/replace.ts) -/

/-- One replacement suggestion: interface ReplacementSuggestion. -/
structure ReplacementSuggestion where
  original : String
  replacement : String
  tokenName : String
  property : Option String
deriving DecidableEq, Repr

/-- The outcome record: interface ReplacementResult. -/
structure ReplacementResult where
  originalCode : String
  fixedCode : String
  replacements : List ReplacementSuggestion
  replacementCount : Nat
deriving DecidableEq, Repr

/-- replaceHardCodedValues of replace.ts: scan the extracted values,
record a suggestion for each one with an exactly matching token, rewrite
every occurrence of the literal only under autofix (the escaped global
regex replace is a plain replace-all), and return the original code
untouched otherwise. -/
def replaceHardCodedValues (code : String) (tokens : List DesignToken)
    (autofix : Bool) : ReplacementResult :=
  let step := fun (st : List ReplacementSuggestion × String) (v : CSSValue) =>
    match findMatchingToken v.value tokens with
    | some matchingToken =>
      let replacement := "var(--" ++ matchingToken ++ ")"
      (st.1 ++ [{ original := v.value, replacement := replacement,
                  tokenName := matchingToken, property := v.property }],
       if autofix then st.2.replace v.value replacement else st.2)
    | none => st
  let final := (extractAllValues code).foldl step ([], code)
  { originalCode := code,
    fixedCode := if autofix then final.2 else code,
    replacements := final.1,
    replacementCount := final.1.length }

/-! ## Theme generator (src/tools/theme-generator.ts, current variant) -/

/-- Remove the first hash anywhere in the string: the string-pattern
replace of hexToHSL, which is not anchored. -/
def removeFirstHash : List Char → List Char
  | [] => []
  | '#' :: rest => rest
  | c :: rest => c :: removeFirstHash rest

/-- The three channel groups of hexToHSL: substrings at 0, 2 and 4 of
the hash-stripped text, parsed with parseInt radix 16.  A NaN in any
channel poisons the whole conversion (none). -/
def hexChannels (hex : String) : Option (Int × Int × Int) :=
  let cs := removeFirstHash hex.data
  match parseIntHexCore (cs.take 2), parseIntHexCore ((cs.drop 2).take 2),
      parseIntHexCore ((cs.drop 4).take 2) with
  | some r, some g, some b => some (r, g, b)
  | _, _, _ => none

/-- The RGB-to-HSL computation of hexToHSL on rational channels scaled
by 255: the min-max algorithm with the saturation split on lightness,
the sixty-degree sector selection in source order, and Math.round on
each component. -/
def hslFromRgbQ (ri gi bi : Int) : Int × Int × Int :=
  let r : ℚ := (ri : ℚ) / 255
  let g : ℚ := (gi : ℚ) / 255
  let b : ℚ := (bi : ℚ) / 255
  let mx := max r (max g b)
  let mn := min r (min g b)
  let l := (mx + mn) / 2
  if mx = mn then (jsRound (0 * 360), jsRound (0 * 100), jsRound (l * 100))
  else
    let d := mx - mn
    let s := if 1 / 2 < l then d / (2 - mx - mn) else d / (mx + mn)
    let h :=
      if mx = r then ((g - b) / d + (if g < b then (6 : ℚ) else 0)) / 6
      else if mx = g then ((b - r) / d + 2) / 6
      else ((r - g) / d + 4) / 6
    (jsRound (h * 360), jsRound (s * 100), jsRound (l * 100))

/-- hexToHSL of theme-generator.ts. -/
def hexToHSL (hex : String) : Option (Int × Int × Int) :=
  match hexChannels hex with
  | some (r, g, b) => some (hslFromRgbQ r g b)
  | none => none

/-- The brand colour configuration: interface BrandColors of the
current theme-generator variant; absent fields are none. -/
structure BrandColors where
  primary : Option String := none
  neutral : Option String := none
  alertsWarning : Option String := none
  alertsDanger : Option String := none
  alertsInfo : Option String := none
  alertsNotice : Option String := none
deriving DecidableEq, Repr

/-- Object.keys(brandColors).length is positive: at least one field was
supplied by the caller. -/
def BrandColors.hasAnyKey (bc : BrandColors) : Bool :=
  bc.primary.isSome || bc.neutral.isSome || bc.alertsWarning.isSome ||
  bc.alertsDanger.isSome || bc.alertsInfo.isSome || bc.alertsNotice.isSome

/-- The three base HSL tokens of one colour family as emitted by the
loop body of generateColorTokens; when any channel parses to NaN the
source emits hue zero (the switch matches nothing) and NaN percent
strings for saturation and lightness. -/
def familyTokens (family hex : String) : List DesignToken :=
  match hexToHSL hex with
  | some (h, s, l) =>
    [{ name := "op-color-" ++ family ++ "-h", value := toString h,
       category := "color",
       description := some (family ++ " color hue (HSL) - drives all " ++
         family ++ " scale tokens") },
     { name := "op-color-" ++ family ++ "-s", value := toString s ++ "%",
       category := "color",
       description := some (family ++ " color saturation (HSL)") },
     { name := "op-color-" ++ family ++ "-l", value := toString l ++ "%",
       category := "color",
       description := some (family ++ " color lightness (HSL)") }]
  | none =>
    [{ name := "op-color-" ++ family ++ "-h", value := "0",
       category := "color",
       description := some (family ++ " color hue (HSL) - drives all " ++
         family ++ " scale tokens") },
     { name := "op-color-" ++ family ++ "-s", value := "NaN%",
       category := "color",
       description := some (family ++ " color saturation (HSL)") },
     { name := "op-color-" ++ family ++ "-l", value := "NaN%",
       category := "color",
       description := some (family ++ " color lightness (HSL)") }]

/-- generateColorTokens of the current variant: the supplied colours
merged over the built-in defaults, iterated in the key order of the
defaults object; a family is skipped only when its merged value is the
empty string (the falsiness test of the loop). -/
def generateColorTokens (bc : BrandColors) : List DesignToken :=
  let primary := bc.primary.getD "#2D6FDB"
  let neutral := bc.neutral.getD "#757882"
  let warning := bc.alertsWarning.getD "#FFD93D"
  let danger := bc.alertsDanger.getD "#FF6B94"
  let info := bc.alertsInfo.getD "#2D6FDB"
  let notice := bc.alertsNotice.getD "#6ACF71"
  (if primary == "" then [] else familyTokens "primary" primary) ++
  (if neutral == "" then [] else familyTokens "neutral" neutral) ++
  (if warning == "" then [] else familyTokens "alerts-warning" warning) ++
  (if danger == "" then [] else familyTokens "alerts-danger" danger) ++
  (if info == "" then [] else familyTokens "alerts-info" info) ++
  (if notice == "" then [] else familyTokens "alerts-notice" notice)

set_option maxHeartbeats 2000000 in
/-- The static token catalog: designTokens of src/optics-data.ts. -/
def designTokens : List DesignToken :=
  [{ name := "op-color-primary-h", value := "216", category := "color",
     description := some "Primary color hue (HSL)" },
   { name := "op-color-primary-s", value := "58%", category := "color",
     description := some "Primary color saturation (HSL)" },
   { name := "op-color-primary-l", value := "48%", category := "color",
     description := some "Primary color lightness (HSL)" },
   { name := "op-color-neutral-h", value := "216", category := "color",
     description := some "Neutral color hue (HSL, inherits from primary)" },
   { name := "op-color-neutral-s", value := "4%", category := "color",
     description := some "Neutral color saturation (HSL)" },
   { name := "op-color-neutral-l", value := "48%", category := "color",
     description := some "Neutral color lightness (HSL)" },
   { name := "op-color-alerts-warning-h", value := "47", category := "color",
     description := some "Warning alert hue (HSL)" },
   { name := "op-color-alerts-warning-s", value := "100%", category := "color",
     description := some "Warning alert saturation (HSL)" },
   { name := "op-color-alerts-warning-l", value := "61%", category := "color",
     description := some "Warning alert lightness (HSL)" },
   { name := "op-color-alerts-danger-h", value := "0", category := "color",
     description := some "Danger alert hue (HSL)" },
   { name := "op-color-alerts-danger-s", value := "99%", category := "color",
     description := some "Danger alert saturation (HSL)" },
   { name := "op-color-alerts-danger-l", value := "76%", category := "color",
     description := some "Danger alert lightness (HSL)" },
   { name := "op-color-alerts-info-h", value := "216", category := "color",
     description := some "Info alert hue (HSL)" },
   { name := "op-color-alerts-info-s", value := "58%", category := "color",
     description := some "Info alert saturation (HSL)" },
   { name := "op-color-alerts-info-l", value := "48%", category := "color",
     description := some "Info alert lightness (HSL)" },
   { name := "op-color-alerts-notice-h", value := "130", category := "color",
     description := some "Notice alert hue (HSL)" },
   { name := "op-color-alerts-notice-s", value := "61%", category := "color",
     description := some "Notice alert saturation (HSL)" },
   { name := "op-color-alerts-notice-l", value := "64%", category := "color",
     description := some "Notice alert lightness (HSL)" },
   { name := "op-color-white", value := "hsl(0deg 100% 100%)",
     category := "color", description := some "Pure white" },
   { name := "op-color-black", value := "hsl(0deg 0% 0%)",
     category := "color", description := some "Pure black" },
   { name := "op-space-scale-unit", value := "1rem", category := "spacing",
     description := some "Base unit for spacing scale (10px)" },
   { name := "op-space-3x-small",
     value := "calc(var(--op-space-scale-unit) * 0.2)",
     category := "spacing", description := some "2px spacing" },
   { name := "op-space-2x-small",
     value := "calc(var(--op-space-scale-unit) * 0.4)",
     category := "spacing", description := some "4px spacing" },
   { name := "op-space-x-small",
     value := "calc(var(--op-space-scale-unit) * 0.8)",
     category := "spacing", description := some "8px spacing" },
   { name := "op-space-small",
     value := "calc(var(--op-space-scale-unit) * 1.2)",
     category := "spacing", description := some "12px spacing" },
   { name := "op-space-medium",
     value := "calc(var(--op-space-scale-unit) * 1.6)",
     category := "spacing", description := some "16px spacing" },
   { name := "op-space-large",
     value := "calc(var(--op-space-scale-unit) * 2)",
     category := "spacing", description := some "20px spacing" },
   { name := "op-space-x-large",
     value := "calc(var(--op-space-scale-unit) * 2.4)",
     category := "spacing", description := some "24px spacing" },
   { name := "op-space-2x-large",
     value := "calc(var(--op-space-scale-unit) * 2.8)",
     category := "spacing", description := some "28px spacing" },
   { name := "op-space-3x-large",
     value := "calc(var(--op-space-scale-unit) * 4)",
     category := "spacing", description := some "40px spacing" },
   { name := "op-space-4x-large",
     value := "calc(var(--op-space-scale-unit) * 8)",
     category := "spacing", description := some "80px spacing" },
   { name := "op-font-family",
     value := "\x27Noto Sans\x27, \x27Noto Serif\x27, sans-serif",
     category := "typography", description := some "Font family for all text" },
   { name := "op-font-scale-unit", value := "1rem", category := "typography",
     description := some "Base unit for font scale (10px)" },
   { name := "op-font-2x-small",
     value := "calc(var(--op-font-scale-unit) * 1)",
     category := "typography", description := some "10px font size" },
   { name := "op-font-x-small",
     value := "calc(var(--op-font-scale-unit) * 1.2)",
     category := "typography", description := some "12px font size" },
   { name := "op-font-small",
     value := "calc(var(--op-font-scale-unit) * 1.4)",
     category := "typography", description := some "14px font size" },
   { name := "op-font-medium",
     value := "calc(var(--op-font-scale-unit) * 1.6)",
     category := "typography", description := some "16px font size" },
   { name := "op-font-large",
     value := "calc(var(--op-font-scale-unit) * 1.8)",
     category := "typography", description := some "18px font size" },
   { name := "op-font-x-large",
     value := "calc(var(--op-font-scale-unit) * 2)",
     category := "typography", description := some "20px font size" },
   { name := "op-font-2x-large",
     value := "calc(var(--op-font-scale-unit) * 2.4)",
     category := "typography", description := some "24px font size" },
   { name := "op-font-3x-large",
     value := "calc(var(--op-font-scale-unit) * 2.8)",
     category := "typography", description := some "28px font size" },
   { name := "op-font-4x-large",
     value := "calc(var(--op-font-scale-unit) * 3.2)",
     category := "typography", description := some "32px font size" },
   { name := "op-font-5x-large",
     value := "calc(var(--op-font-scale-unit) * 3.6)",
     category := "typography", description := some "36px font size" },
   { name := "op-font-6x-large",
     value := "calc(var(--op-font-scale-unit) * 4.8)",
     category := "typography", description := some "48px font size" },
   { name := "op-font-weight-thin", value := "100", category := "typography",
     description := some "Thin font weight" },
   { name := "op-font-weight-extra-light", value := "200",
     category := "typography", description := some "Extra light font weight" },
   { name := "op-font-weight-light", value := "300", category := "typography",
     description := some "Light font weight" },
   { name := "op-font-weight-normal", value := "400", category := "typography",
     description := some "Normal font weight" },
   { name := "op-font-weight-medium", value := "500", category := "typography",
     description := some "Medium font weight" },
   { name := "op-font-weight-semi-bold", value := "600",
     category := "typography", description := some "Semi-bold font weight" },
   { name := "op-font-weight-bold", value := "700", category := "typography",
     description := some "Bold font weight" },
   { name := "op-font-weight-extra-bold", value := "800",
     category := "typography", description := some "Extra bold font weight" },
   { name := "op-font-weight-black", value := "900", category := "typography",
     description := some "Black font weight" },
   { name := "op-line-height-none", value := "0", category := "typography",
     description := some "No line height" },
   { name := "op-line-height-densest", value := "1", category := "typography",
     description := some "Densest line height" },
   { name := "op-line-height-denser", value := "1.15",
     category := "typography", description := some "Denser line height" },
   { name := "op-line-height-dense", value := "1.3", category := "typography",
     description := some "Dense line height" },
   { name := "op-line-height-base", value := "1.5", category := "typography",
     description := some "Base line height" },
   { name := "op-line-height-loose", value := "1.6", category := "typography",
     description := some "Loose line height" },
   { name := "op-line-height-looser", value := "1.7", category := "typography",
     description := some "Looser line height" },
   { name := "op-line-height-loosest", value := "1.8",
     category := "typography", description := some "Loosest line height" },
   { name := "op-letter-spacing-navigation", value := "0.01rem",
     category := "typography",
     description := some "Letter spacing for navigation" },
   { name := "op-letter-spacing-label", value := "0.04rem",
     category := "typography", description := some "Letter spacing for labels" },
   { name := "op-radius-small", value := "2px", category := "border",
     description := some "Small border radius" },
   { name := "op-radius-medium", value := "4px", category := "border",
     description := some "Medium border radius" },
   { name := "op-radius-large", value := "8px", category := "border",
     description := some "Large border radius" },
   { name := "op-radius-x-large", value := "12px", category := "border",
     description := some "Extra large border radius" },
   { name := "op-radius-2x-large", value := "16px", category := "border",
     description := some "2X large border radius" },
   { name := "op-radius-circle", value := "50%", category := "border",
     description := some "Circular border radius" },
   { name := "op-radius-pill", value := "9999px", category := "border",
     description := some "Pill-shaped border radius" },
   { name := "op-border-width", value := "1px", category := "border",
     description := some "Standard border width" },
   { name := "op-border-width-large", value := "2px", category := "border",
     description := some "Large border width" },
   { name := "op-border-width-x-large", value := "4px", category := "border",
     description := some "Extra large border width" },
   { name := "op-shadow-x-small",
     value := "0 1px 2px hsl(0deg 0% 0% / 3%), 0 1px 3px hsl(0deg 0% 0% / 15%)",
     category := "shadow", description := some "Extra small shadow" },
   { name := "op-shadow-small",
     value := "0 1px 2px hsl(0deg 0% 0% / 3%), 0 2px 6px hsl(0deg 0% 0% / 15%)",
     category := "shadow", description := some "Small shadow" },
   { name := "op-shadow-medium",
     value := "0 4px 8px hsl(0deg 0% 0% / 15%), 0 1px 3px hsl(0deg 0% 0% / 3%)",
     category := "shadow", description := some "Medium shadow" },
   { name := "op-shadow-large",
     value := "0 6px 10px hsl(0deg 0% 0% / 15%), 0 2px 3px hsl(0deg 0% 0% / 3%)",
     category := "shadow", description := some "Large shadow" },
   { name := "op-shadow-x-large",
     value := "0 8px 12px hsl(0deg 0% 0% / 15%), 0 4px 4px hsl(0deg 0% 0% / 3%)",
     category := "shadow", description := some "Extra large shadow" },
   { name := "op-opacity-none", value := "0", category := "color",
     description := some "No opacity" },
   { name := "op-opacity-overlay", value := "0.2", category := "color",
     description := some "Overlay opacity" },
   { name := "op-opacity-disabled", value := "0.4", category := "color",
     description := some "Disabled opacity" },
   { name := "op-opacity-half", value := "0.5", category := "color",
     description := some "Half opacity" },
   { name := "op-opacity-full", value := "1", category := "color",
     description := some "Full opacity" }]

/-- The token-assembly core of generateTheme (current variant): start
from the full static catalog and, when any brand colour was supplied,
swap every token whose name matches a generated base HSL token for the
generated one.  The css, figma and documentation renderings of
generateTheme are string templating over this list and are not part of
the claims. -/
def generateThemeTokens (bc : BrandColors) : List DesignToken :=
  if bc.hasAnyKey then
    designTokens.map (fun t =>
      ((generateColorTokens bc).find? (fun ct => ct.name == t.name)).getD t)
  else designTokens

/-- The names of the eighteen base HSL tokens that generateColorTokens
can emit: three per configured colour family. -/
def baseHSLNames : List String :=
  ["op-color-primary-h", "op-color-primary-s", "op-color-primary-l",
   "op-color-neutral-h", "op-color-neutral-s", "op-color-neutral-l",
   "op-color-alerts-warning-h", "op-color-alerts-warning-s",
   "op-color-alerts-warning-l",
   "op-color-alerts-danger-h", "op-color-alerts-danger-s",
   "op-color-alerts-danger-l",
   "op-color-alerts-info-h", "op-color-alerts-info-s",
   "op-color-alerts-info-l",
   "op-color-alerts-notice-h", "op-color-alerts-notice-s",
   "op-color-alerts-notice-l"]

/-- A six-hex-digit colour string, with or without the leading hash:
the domain called a valid 6-digit hex colour by the specification. -/
def hexDigits6 (s : String) : Prop :=
  ∃ c1 c2 c3 c4 c5 c6,
    (s.data = [c1, c2, c3, c4, c5, c6] ∨
     s.data = '#' :: [c1, c2, c3, c4, c5, c6]) ∧
    ([c1, c2, c3, c4, c5, c6].all isHexDigitChar = true)

/-- A three-hex-digit colour string, with or without the leading hash. -/
def hexDigits3 (s : String) : Prop :=
  ∃ c1 c2 c3,
    (s.data = [c1, c2, c3] ∨ s.data = '#' :: [c1, c2, c3]) ∧
    ([c1, c2, c3].all isHexDigitChar = true)

/-! ## General lemmas about the character and parsing primitives -/

lemma char_le_iff_toNat {a c : Char} : a ≤ c ↔ a.toNat ≤ c.toNat := by
  simp [Char.le_def, UInt32.le_def, BitVec.le_def, Char.toNat, UInt32.toNat]

lemma char_eq_iff_toNat {c d : Char} : c = d ↔ c.toNat = d.toNat := by
  constructor
  · intro h
    rw [h]
  · intro h
    rw [← Char.ofNat_toNat c, h, Char.ofNat_toNat]

lemma char_isDigit_iff {c : Char} :
    c.isDigit = true ↔ 48 ≤ c.toNat ∧ c.toNat ≤ 57 := by
  simp only [Char.isDigit, Bool.and_eq_true, decide_eq_true_eq, ge_iff_le,
    UInt32.le_def, BitVec.le_def]
  exact Iff.rfl

lemma isHexDigitChar_ranges {c : Char} (h : isHexDigitChar c = true) :
    (48 ≤ c.toNat ∧ c.toNat ≤ 57) ∨ (97 ≤ c.toNat ∧ c.toNat ≤ 102) ∨
    (65 ≤ c.toNat ∧ c.toNat ≤ 70) := by
  simp only [isHexDigitChar, Bool.or_eq_true, Bool.and_eq_true,
    decide_eq_true_eq] at h
  rcases h with (h | ⟨h1, h2⟩) | ⟨h1, h2⟩
  · exact Or.inl (char_isDigit_iff.mp h)
  · rw [char_le_iff_toNat, show ('a' : Char).toNat = 97 from rfl] at h1
    rw [char_le_iff_toNat, show ('f' : Char).toNat = 102 from rfl] at h2
    exact Or.inr (Or.inl ⟨h1, h2⟩)
  · rw [char_le_iff_toNat, show ('A' : Char).toNat = 65 from rfl] at h1
    rw [char_le_iff_toNat, show ('F' : Char).toNat = 70 from rfl] at h2
    exact Or.inr (Or.inr ⟨h1, h2⟩)

lemma hexVal_le_15 {c : Char} (h : isHexDigitChar c = true) :
    hexVal c ≤ 15 := by
  have hr := isHexDigitChar_ranges h
  unfold hexVal
  split
  · next hd =>
    have := char_isDigit_iff.mp hd
    omega
  · next hd =>
    split
    · next hl =>
      simp only [Bool.and_eq_true, decide_eq_true_eq] at hl
      obtain ⟨h1, h2⟩ := hl
      rw [char_le_iff_toNat, show ('a' : Char).toNat = 97 from rfl] at h1
      rw [char_le_iff_toNat, show ('f' : Char).toNat = 102 from rfl] at h2
      omega
    · next hl =>
      have hnd : ¬(48 ≤ c.toNat ∧ c.toNat ≤ 57) := by
        intro hx
        exact hd (char_isDigit_iff.mpr hx)
      have hnl : ¬(97 ≤ c.toNat ∧ c.toNat ≤ 102) := by
        intro hx
        refine hl ?_
        simp only [Bool.and_eq_true, decide_eq_true_eq]
        constructor
        · rw [char_le_iff_toNat]
          exact hx.1
        · rw [char_le_iff_toNat]
          exact hx.2
      omega

lemma toNat_ne_of_hex {c : Char} (h : isHexDigitChar c = true) {n : Nat}
    (h1 : n < 48 ∨ (57 < n ∧ n < 65) ∨ (70 < n ∧ n < 97) ∨ 102 < n) :
    c.toNat ≠ n := by
  have hr := isHexDigitChar_ranges h
  omega

lemma ne_of_hex {c d : Char} (h : isHexDigitChar c = true)
    (h1 : d.toNat < 48 ∨ (57 < d.toNat ∧ d.toNat < 65) ∨
      (70 < d.toNat ∧ d.toNat < 97) ∨ 102 < d.toNat) : c ≠ d := by
  intro he
  exact toNat_ne_of_hex h h1 (char_eq_iff_toNat.mp he)

lemma isJsSpace_eq_false_of_hex {c : Char} (h : isHexDigitChar c = true) :
    isJsSpace c = false := by
  have hr := isHexDigitChar_ranges h
  simp only [isJsSpace, Bool.or_eq_false_iff, beq_eq_false_iff_ne, ne_eq,
    Bool.and_eq_false_iff, decide_eq_false_iff_not, not_le]
  omega

lemma parseIntHex_hexPair {a b : Char} (ha : isHexDigitChar a = true)
    (hb : isHexDigitChar b = true) :
    parseIntHexCore [a, b] = some ((16 * hexVal a + hexVal b : ℕ) : ℤ) := by
  have hsp : isJsSpace a = false := isJsSpace_eq_false_of_hex ha
  have hna : a ≠ '-' := ne_of_hex ha (by decide)
  have hnp : a ≠ '+' := ne_of_hex ha (by decide)
  have hbx : b ≠ 'x' := ne_of_hex hb (by decide)
  have hbX : b ≠ 'X' := ne_of_hex hb (by decide)
  have hsign : (match [a, b] with
      | '-' :: rest => ((-1 : Int), rest)
      | '+' :: rest => ((1 : Int), rest)
      | _ => ((1 : Int), [a, b])) = ((1 : Int), [a, b]) := by
    split
    · next rest heq =>
      injection heq with h1 _
      exact absurd h1 hna
    · next rest heq =>
      injection heq with h1 _
      exact absurd h1 hnp
    · rfl
  have hmark : (match [a, b] with
      | '0' :: 'x' :: rest => rest
      | '0' :: 'X' :: rest => rest
      | _ => [a, b]) = [a, b] := by
    split
    · next rest heq =>
      injection heq with _ h2
      injection h2 with h2 _
      exact absurd h2 hbx
    · next rest heq =>
      injection heq with _ h2
      injection h2 with h2 _
      exact absurd h2 hbX
    · rfl
  unfold parseIntHexCore
  simp only [List.dropWhile_cons, hsp, Bool.false_eq_true, if_false, hsign,
    hmark, List.takeWhile_cons_of_pos ha, List.takeWhile_cons_of_pos hb,
    List.takeWhile_nil, List.isEmpty_cons, natOfHexDigits, List.foldl_cons,
    List.foldl_nil]
  norm_num

lemma removeFirstHash_of_hex : ∀ l : List Char,
    (∀ c ∈ l, isHexDigitChar c = true) → removeFirstHash l = l := by
  intro l
  induction l with
  | nil => intro _; rfl
  | cons c l ih =>
    intro h
    have hc : c ≠ '#' := ne_of_hex (h c (by simp)) (by decide)
    unfold removeFirstHash
    split
    · next heq => exact absurd heq (by simp)
    · next rest heq =>
      injection heq with h1 _
      exact absurd h1 hc
    · next c' rest heq =>
      injection heq with h1 h2
      subst h1
      subst h2
      rw [ih (fun d hd => h d (by simp [hd]))]

lemma hexChannels_of_hexDigits6 {s : String} (h : hexDigits6 s) :
    ∃ r g b : ℕ, hexChannels s = some ((r : ℤ), (g : ℤ), (b : ℤ)) ∧
      r ≤ 255 ∧ g ≤ 255 ∧ b ≤ 255 := by
  obtain ⟨c1, c2, c3, c4, c5, c6, hshape, hall⟩ := h
  simp only [List.all_cons, List.all_nil, Bool.and_eq_true, Bool.and_true]
    at hall
  obtain ⟨h1, h2, h3, h4, h5, h6⟩ := hall
  have hstrip : removeFirstHash s.data = [c1, c2, c3, c4, c5, c6] := by
    rcases hshape with hs | hs
    · rw [hs]
      exact removeFirstHash_of_hex _ (by
        intro c hc
        simp only [List.mem_cons, List.not_mem_nil, or_false] at hc
        rcases hc with rfl | rfl | rfl | rfl | rfl | rfl <;> assumption)
    · rw [hs]
      rfl
  refine ⟨16 * hexVal c1 + hexVal c2, 16 * hexVal c3 + hexVal c4,
    16 * hexVal c5 + hexVal c6, ?_, ?_, ?_, ?_⟩
  · simp only [hexChannels, hstrip, List.take_succ_cons, List.take_zero,
      List.drop_succ_cons, List.drop_zero, parseIntHex_hexPair h1 h2,
      parseIntHex_hexPair h3 h4, parseIntHex_hexPair h5 h6]
  · have := hexVal_le_15 h1
    have := hexVal_le_15 h2
    omega
  · have := hexVal_le_15 h3
    have := hexVal_le_15 h4
    omega
  · have := hexVal_le_15 h5
    have := hexVal_le_15 h6
    omega

lemma jsRound_nonneg {x : ℚ} (h : 0 ≤ x) : 0 ≤ jsRound x := by
  unfold jsRound
  exact Int.le_floor.mpr (by push_cast; linarith)

lemma jsRound_le_of_lt {x : ℚ} {n : ℤ} (h : x < (n : ℚ)) : jsRound x ≤ n := by
  unfold jsRound
  have h2 : ⌊x + 1 / 2⌋ < n + 1 := Int.floor_lt.mpr (by push_cast; linarith)
  omega

lemma jsRound_le_of_le {x : ℚ} {n : ℤ} (h : x ≤ (n : ℚ)) : jsRound x ≤ n := by
  unfold jsRound
  have h2 : ⌊x + 1 / 2⌋ < n + 1 := Int.floor_lt.mpr (by push_cast; linarith)
  omega

lemma hueExpr_bounds (r g b mx mn : ℚ) (hd : mn < mx)
    (hrb : mn ≤ r ∧ r ≤ mx) (hgb : mn ≤ g ∧ g ≤ mx) (hbb : mn ≤ b ∧ b ≤ mx) :
    0 ≤ (if mx = r then ((g - b) / (mx - mn) + (if g < b then (6 : ℚ) else 0)) / 6
         else if mx = g then ((b - r) / (mx - mn) + 2) / 6
         else ((r - g) / (mx - mn) + 4) / 6) ∧
    (if mx = r then ((g - b) / (mx - mn) + (if g < b then (6 : ℚ) else 0)) / 6
     else if mx = g then ((b - r) / (mx - mn) + 2) / 6
     else ((r - g) / (mx - mn) + 4) / 6) < 1 := by
  have hd0 : 0 < mx - mn := by linarith
  split_ifs with h1 h2 h3
  · have hq1 : (g - b) / (mx - mn) < 0 :=
      div_neg_of_neg_of_pos (by linarith) hd0
    have hq2 : (-1 : ℚ) ≤ (g - b) / (mx - mn) :=
      (le_div_iff₀ hd0).mpr (by linarith)
    constructor <;> linarith
  · have hq1 : 0 ≤ (g - b) / (mx - mn) :=
      div_nonneg (by linarith) hd0.le
    have hq2 : (g - b) / (mx - mn) ≤ 1 :=
      (div_le_one hd0).mpr (by linarith)
    constructor <;> linarith
  · have hq1 : (-1 : ℚ) ≤ (b - r) / (mx - mn) :=
      (le_div_iff₀ hd0).mpr (by linarith)
    have hq2 : (b - r) / (mx - mn) ≤ 1 :=
      (div_le_one hd0).mpr (by linarith)
    constructor <;> linarith
  · have hq1 : (-1 : ℚ) ≤ (r - g) / (mx - mn) :=
      (le_div_iff₀ hd0).mpr (by linarith)
    have hq2 : (r - g) / (mx - mn) ≤ 1 :=
      (div_le_one hd0).mpr (by linarith)
    constructor <;> linarith

lemma satExpr_bounds (mx mn : ℚ) (hd : mn < mx) (h0 : 0 ≤ mn) (h1 : mx ≤ 1) :
    0 ≤ (if 1 / 2 < (mx + mn) / 2 then (mx - mn) / (2 - mx - mn)
         else (mx - mn) / (mx + mn)) ∧
    (if 1 / 2 < (mx + mn) / 2 then (mx - mn) / (2 - mx - mn)
     else (mx - mn) / (mx + mn)) ≤ 1 := by
  split_ifs with hl
  · have hden : 0 < 2 - mx - mn := by linarith
    constructor
    · exact div_nonneg (by linarith) hden.le
    · exact (div_le_one hden).mpr (by linarith)
  · have hden : 0 < mx + mn := by linarith
    constructor
    · exact div_nonneg (by linarith) hden.le
    · exact (div_le_one hden).mpr (by linarith)

theorem hslFromRgbQ_bounds (ri gi bi : ℤ) (hr0 : 0 ≤ ri) (hr1 : ri ≤ 255)
    (hg0 : 0 ≤ gi) (hg1 : gi ≤ 255) (hb0 : 0 ≤ bi) (hb1 : bi ≤ 255) :
    0 ≤ (hslFromRgbQ ri gi bi).1 ∧ (hslFromRgbQ ri gi bi).1 ≤ 360 ∧
    0 ≤ (hslFromRgbQ ri gi bi).2.1 ∧ (hslFromRgbQ ri gi bi).2.1 ≤ 100 ∧
    0 ≤ (hslFromRgbQ ri gi bi).2.2 ∧ (hslFromRgbQ ri gi bi).2.2 ≤ 100 := by
  have hra : (0 : ℚ) ≤ (ri : ℚ) / 255 :=
    div_nonneg (by exact_mod_cast hr0) (by norm_num)
  have hrb : (ri : ℚ) / 255 ≤ 1 :=
    (div_le_one (by norm_num)).mpr (by exact_mod_cast hr1)
  have hga : (0 : ℚ) ≤ (gi : ℚ) / 255 :=
    div_nonneg (by exact_mod_cast hg0) (by norm_num)
  have hgb : (gi : ℚ) / 255 ≤ 1 :=
    (div_le_one (by norm_num)).mpr (by exact_mod_cast hg1)
  have hba : (0 : ℚ) ≤ (bi : ℚ) / 255 :=
    div_nonneg (by exact_mod_cast hb0) (by norm_num)
  have hbb : (bi : ℚ) / 255 ≤ 1 :=
    (div_le_one (by norm_num)).mpr (by exact_mod_cast hb1)
  simp only [hslFromRgbQ]
  set r : ℚ := (ri : ℚ) / 255 with hrdef
  set g : ℚ := (gi : ℚ) / 255 with hgdef
  set b : ℚ := (bi : ℚ) / 255 with hbdef
  set mx : ℚ := max r (max g b) with hmxdef
  set mn : ℚ := min r (min g b) with hmndef
  have hmx1 : mx ≤ 1 := max_le hrb (max_le hgb hbb)
  have hmn0 : 0 ≤ mn := le_min hra (le_min hga hba)
  have hrmem : mn ≤ r ∧ r ≤ mx := ⟨min_le_left _ _, le_max_left _ _⟩
  have hgmem : mn ≤ g ∧ g ≤ mx :=
    ⟨le_trans (min_le_right _ _) (min_le_left _ _),
     le_trans (le_max_left _ _) (le_max_right _ _)⟩
  have hbmem : mn ≤ b ∧ b ≤ mx :=
    ⟨le_trans (min_le_right _ _) (min_le_right _ _),
     le_trans (le_max_right _ _) (le_max_right _ _)⟩
  have hmnmx : mn ≤ mx := le_trans hrmem.1 hrmem.2
  by_cases heq : mx = mn
  · rw [if_pos heq]
    have hl0 : (0 : ℚ) ≤ (mx + mn) / 2 * 100 := by positivity
    have hl1 : (mx + mn) / 2 * 100 ≤ ((100 : ℤ) : ℚ) := by
      push_cast
      nlinarith
    refine ⟨?_, ?_, ?_, ?_, ?_, ?_⟩
    · exact jsRound_nonneg (by norm_num)
    · exact jsRound_le_of_le (by push_cast; norm_num)
    · exact jsRound_nonneg (by norm_num)
    · exact jsRound_le_of_le (by push_cast; norm_num)
    · exact jsRound_nonneg hl0
    · exact jsRound_le_of_le hl1
  · rw [if_neg heq]
    have hd : mn < mx := lt_of_le_of_ne hmnmx (fun h => heq h.symm)
    have hh := hueExpr_bounds r g b mx mn hd hrmem hgmem hbmem
    have hs := satExpr_bounds mx mn hd hmn0 hmx1
    have hl0 : (0 : ℚ) ≤ (mx + mn) / 2 * 100 := by positivity
    have hl1 : (mx + mn) / 2 * 100 ≤ ((100 : ℤ) : ℚ) := by
      push_cast
      nlinarith
    refine ⟨?_, ?_, ?_, ?_, ?_, ?_⟩
    · exact jsRound_nonneg (mul_nonneg hh.1 (by norm_num))
    · refine jsRound_le_of_lt ?_
      push_cast
      nlinarith [hh.2]
    · exact jsRound_nonneg (mul_nonneg hs.1 (by norm_num))
    · refine jsRound_le_of_le ?_
      push_cast
      nlinarith [hs.2]
    · exact jsRound_nonneg hl0
    · exact jsRound_le_of_le hl1

lemma mem_insertDescBy {key : α → ℚ} {x a : α} :
    ∀ {l : List α}, a ∈ insertDescBy key x l ↔ a = x ∨ a ∈ l := by
  intro l
  induction l with
  | nil => simp [insertDescBy]
  | cons y ys ih =>
    simp only [insertDescBy]
    split_ifs with h
    · simp only [List.mem_cons, ih]
      tauto
    · simp only [List.mem_cons]

lemma mem_foldl_insertDescBy {key : α → ℚ} {a : α} :
    ∀ (l acc : List α),
      a ∈ l.foldl (fun acc x => insertDescBy key x acc) acc ↔
        a ∈ acc ∨ a ∈ l := by
  intro l
  induction l with
  | nil => simp
  | cons x xs ih =>
    intro acc
    simp only [List.foldl_cons, ih, mem_insertDescBy, List.mem_cons]
    tauto

lemma mem_sortDescBy {key : α → ℚ} {a : α} {l : List α} :
    a ∈ sortDescBy key l ↔ a ∈ l := by
  unfold sortDescBy
  rw [mem_foldl_insertDescBy]
  simp

lemma pairwise_insertDescBy {key : α → ℚ} {x : α} {l : List α}
    (h : l.Pairwise (fun u v => key v ≤ key u)) :
    (insertDescBy key x l).Pairwise (fun u v => key v ≤ key u) := by
  induction l with
  | nil => simp [insertDescBy]
  | cons y ys ih =>
    rcases List.pairwise_cons.mp h with ⟨hy, hys⟩
    simp only [insertDescBy]
    split_ifs with hxy
    · refine List.pairwise_cons.mpr ⟨?_, ih hys⟩
      intro z hz
      rcases mem_insertDescBy.mp hz with rfl | hzys
      · exact hxy
      · exact hy z hzys
    · refine List.pairwise_cons.mpr ⟨?_, h⟩
      intro z hz
      rcases List.mem_cons.mp hz with rfl | hzys
      · exact le_of_lt (lt_of_not_le hxy)
      · exact le_trans (hy z hzys) (le_of_lt (lt_of_not_le hxy))

lemma pairwise_foldl_insertDescBy {key : α → ℚ} :
    ∀ (l acc : List α), acc.Pairwise (fun u v => key v ≤ key u) →
      (l.foldl (fun acc x => insertDescBy key x acc) acc).Pairwise
        (fun u v => key v ≤ key u) := by
  intro l
  induction l with
  | nil =>
    intro acc h
    simpa using h
  | cons x xs ih =>
    intro acc h
    exact ih (insertDescBy key x acc) (pairwise_insertDescBy h)

lemma pairwise_sortDescBy {key : α → ℚ} {l : List α} :
    (sortDescBy key l).Pairwise (fun u v => key v ≤ key u) :=
  pairwise_foldl_insertDescBy l [] List.Pairwise.nil

lemma filter_insertDescBy {key : α → ℚ} {x : α} (q : ℚ) :
    ∀ {l : List α}, l.Pairwise (fun u v => key v ≤ key u) →
      (insertDescBy key x l).filter (fun a => decide (key a = q)) =
        if key x = q then
          l.filter (fun a => decide (key a = q)) ++ [x]
        else l.filter (fun a => decide (key a = q)) := by
  intro l
  induction l with
  | nil =>
    intro _
    simp only [insertDescBy, List.filter_nil]
    by_cases hxq : key x = q
    · simp [hxq]
    · simp [hxq]
  | cons y ys ih =>
    intro h
    rcases List.pairwise_cons.mp h with ⟨hy, hys⟩
    simp only [insertDescBy]
    by_cases hxy : key x ≤ key y
    · rw [if_pos hxy, List.filter_cons, List.filter_cons, ih hys]
      by_cases hx : key x = q <;>
        by_cases hyq : (decide (key y = q)) = true <;>
          simp [hx, hyq]
    · rw [if_neg hxy, List.filter_cons]
      by_cases hx : key x = q
      · have hempty :
            List.filter (fun a => decide (key a = q)) (y :: ys) = [] := by
          rw [List.filter_eq_nil_iff]
          intro a ha
          simp only [decide_eq_true_eq]
          intro haq
          have hyx : key y < key x := lt_of_not_le hxy
          rcases List.mem_cons.mp ha with rfl | hays
          · rw [hx] at hyx
            exact absurd haq (ne_of_lt hyx)
          · have h1 := hy a hays
            rw [hx] at hyx
            exact absurd haq (ne_of_lt (lt_of_le_of_lt h1 hyx))
        simp [hx, hempty]
      · simp [hx]

lemma filter_foldl_insertDescBy {key : α → ℚ} (q : ℚ) :
    ∀ (l acc : List α), acc.Pairwise (fun u v => key v ≤ key u) →
      (l.foldl (fun acc x => insertDescBy key x acc) acc).filter
          (fun a => decide (key a = q)) =
        acc.filter (fun a => decide (key a = q)) ++
          l.filter (fun a => decide (key a = q)) := by
  intro l
  induction l with
  | nil =>
    intro acc _
    simp
  | cons x xs ih =>
    intro acc h
    rw [List.foldl_cons, ih (insertDescBy key x acc) (pairwise_insertDescBy h),
      filter_insertDescBy q h, List.filter_cons]
    by_cases hxq : key x = q
    · have hxq' : decide (key x = q) = true := by simp [hxq]
      rw [if_pos hxq, if_pos hxq']
      simp
    · have hxq' : ¬ (decide (key x = q) = true) := by simp [hxq]
      rw [if_neg hxq, if_neg hxq']

lemma filter_sortDescBy {key : α → ℚ} (q : ℚ) (l : List α) :
    (sortDescBy key l).filter (fun a => decide (key a = q)) =
      l.filter (fun a => decide (key a = q)) := by
  unfold sortDescBy
  rw [filter_foldl_insertDescBy q l [] List.Pairwise.nil]
  simp

lemma migrationEntryOf_eq_some {old : String} {t : DesignToken} {s : ℚ}
    (hty : detectValueType t.value = detectValueType old)
    (hsim : calculateSimilarity old t.value (detectValueType old) = some s)
    (hgt : 1 / 2 < s) :
    migrationEntryOf old t = some
      { tokenName := t.name, tokenValue := t.value, category := t.category,
        similarity := s, reason := generateMigrationReason s } := by
  simp only [migrationEntryOf, hty, hsim, beq_self_eq_true, if_true]
  rw [if_pos hgt]

lemma migrationEntryOf_inv {old : String} {t : DesignToken}
    {e : MigrationEntry} (h : migrationEntryOf old t = some e) :
    1 / 2 < e.similarity ∧ detectValueType t.value = detectValueType old ∧
      calculateSimilarity old t.value (detectValueType old) =
        some e.similarity := by
  simp only [migrationEntryOf] at h
  split at h
  · next hcond =>
    split at h
    · next s hs =>
      split at h
      · next hgt =>
        injection h with he
        subst he
        exact ⟨hgt, by simpa using hcond, hs⟩
      · exact absurd h (by simp)
    · exact absurd h (by simp)
  · exact absurd h (by simp)

lemma mem_migrationCandidates {old : String} {tokens : List DesignToken}
    {e : MigrationEntry} :
    e ∈ migrationCandidates old tokens ↔
      ∃ t ∈ tokens, migrationEntryOf old t = some e := by
  simp [migrationCandidates, List.mem_filterMap]

/-- Claim C3 (amended): a type-matching candidate contributes a
suggestion exactly when its similarity is a number strictly greater
than one half (so a font-weight candidate with a differing weight,
similarity exactly one half, is discarded); the returned list is the
descending stable sort of the candidates cut to at most five entries,
every returned similarity exceeds one half, and ties keep catalog
order (the filter at each similarity value is unchanged by the
sort). -/
theorem claim_C3_amended (old : String) (tokens : List DesignToken) :
    ((suggestTokenMigration old tokens none).suggestedTokens =
      (sortDescBy (fun e => e.similarity)
        (migrationCandidates old tokens)).take 5) ∧
    (∀ t ∈ tokens, ∀ s : ℚ,
      detectValueType t.value = detectValueType old →
      calculateSimilarity old t.value (detectValueType old) = some s →
      1 / 2 < s →
      ({ tokenName := t.name, tokenValue := t.value, category := t.category,
         similarity := s, reason := generateMigrationReason s } :
        MigrationEntry) ∈ migrationCandidates old tokens) ∧
    (∀ e ∈ migrationCandidates old tokens, 1 / 2 < e.similarity ∧
      ∃ t ∈ tokens, detectValueType t.value = detectValueType old ∧
        calculateSimilarity old t.value (detectValueType old) =
          some e.similarity) ∧
    (∀ e ∈ (suggestTokenMigration old tokens none).suggestedTokens,
      1 / 2 < e.similarity) ∧
    (suggestTokenMigration old tokens none).suggestedTokens.length ≤ 5 ∧
    (suggestTokenMigration old tokens none).suggestedTokens.Pairwise
      (fun u v => v.similarity ≤ u.similarity) ∧
    (∀ q : ℚ,
      (sortDescBy (fun e => e.similarity)
          (migrationCandidates old tokens)).filter
        (fun e => decide (e.similarity = q)) =
      (migrationCandidates old tokens).filter
        (fun e => decide (e.similarity = q))) := by
  refine ⟨rfl, ?_, ?_, ?_, ?_, ?_, ?_⟩
  · intro t ht s hty hsim hgt
    exact mem_migrationCandidates.mpr
      ⟨t, ht, migrationEntryOf_eq_some hty hsim hgt⟩
  · intro e he
    obtain ⟨t, ht, hsome⟩ := mem_migrationCandidates.mp he
    obtain ⟨h1, h2, h3⟩ := migrationEntryOf_inv hsome
    exact ⟨h1, t, ht, h2, h3⟩
  · intro e he
    have he2 : e ∈ sortDescBy (fun e => e.similarity)
        (migrationCandidates old tokens) :=
      List.take_subset 5 _ he
    have he3 : e ∈ migrationCandidates old tokens := mem_sortDescBy.mp he2
    obtain ⟨t, ht, hsome⟩ := mem_migrationCandidates.mp he3
    exact (migrationEntryOf_inv hsome).1
  · simp only [suggestTokenMigration, List.length_take]
    omega
  · exact List.Pairwise.sublist (List.take_sublist 5 _) pairwise_sortDescBy
  · intro q
    exact filter_sortDescBy q _

/-- Claim C3 counterexample: the catalog token with value 700 is a
type-matching font-weight candidate for the query 400 whose similarity
is exactly one half, yet the suggestion list is empty — the source
keeps only candidates with similarity strictly above one half, so a
similarity of exactly one half is discarded, not retained. -/
theorem claim_C3_counterexample :
    detectValueType "700" = detectValueType "400" ∧
    calculateSimilarity "400" "700" (detectValueType "400") = some (1 / 2) ∧
    (suggestTokenMigration "400"
      [{ name := "w", value := "700", category := "typography" }]
      none).suggestedTokens = [] := by
  refine ⟨rfl, rfl, ?_⟩
  have h : migrationEntryOf "400"
      { name := "w", value := "700", category := "typography" } = none := by
    have h1 : detectValueType "400" = "font-weight" := rfl
    have h2 : detectValueType "700" = "font-weight" := rfl
    have h3 : calculateSimilarity "400" "700" "font-weight" = some (1 / 2) :=
      rfl
    simp only [migrationEntryOf, h1, h2, h3, beq_self_eq_true, if_true]
    rw [if_neg]
    norm_num
  simp [suggestTokenMigration, migrationCandidates, List.filterMap, h,
    sortDescBy]

/-- Witness for the amended claim C3 at a concrete catalog: an exact
font-weight candidate (similarity one) is retained. -/
theorem claim_C3_amended_witness :
    ({ tokenName := "w", tokenValue := "400", category := "typography",
       similarity := 1, reason := generateMigrationReason 1 } :
      MigrationEntry) ∈ migrationCandidates "400"
        [{ name := "w", value := "400", category := "typography" }] :=
  (claim_C3_amended "400"
    [{ name := "w", value := "400", category := "typography" }]).2.1
    { name := "w", value := "400", category := "typography" } (by simp)
    1 rfl rfl (by norm_num)

lemma findMatchingToken_eq_find? (v : String) :
    ∀ tokens : List DesignToken,
      findMatchingToken v tokens =
        (tokens.find? (fun u =>
          normalizeValue u.value == normalizeValue v)).map DesignToken.name := by
  intro tokens
  induction tokens with
  | nil => rfl
  | cons u us ih =>
    simp only [findMatchingToken]
    by_cases h : (normalizeValue u.value == normalizeValue v) = true
    · rw [if_pos h, @List.find?_cons_of_pos _ _ _ us h]
      rfl
    · rw [if_neg h, @List.find?_cons_of_neg _ _ _ us (by simpa using h)]
      exact ih

lemma findMatchingToken_self :
    ∀ (tokens : List DesignToken) (t : DesignToken), t ∈ tokens →
      (∀ u ∈ tokens, normalizeValue u.value = normalizeValue t.value →
        u.name = t.name) →
      findMatchingToken t.value tokens = some t.name := by
  intro tokens
  induction tokens with
  | nil =>
    intro t ht _
    simp at ht
  | cons u us ih =>
    intro t ht huniq
    simp only [findMatchingToken]
    by_cases h : (normalizeValue u.value == normalizeValue t.value) = true
    · rw [if_pos h]
      rw [huniq u (by simp) (by simpa using h)]
    · rw [if_neg h]
      have htus : t ∈ us := by
        rcases List.mem_cons.mp ht with rfl | h2
        · exact absurd (by simp) h
        · exact h2
      exact ih t htus (fun w hw he => huniq w (by simp [hw]) he)

/-- Claim C8 (amended): findMatchingToken returns the name of the first
token in catalog order whose normalised stored value equals the
normalised query; hence looking up a token against a catalog that
contains it returns that token whenever no differently-named token
shares its normalised value. -/
theorem claim_C8_amended (tokens : List DesignToken) (t : DesignToken)
    (v : String) :
    (findMatchingToken v tokens =
      (tokens.find? (fun u =>
        normalizeValue u.value == normalizeValue v)).map DesignToken.name) ∧
    (t ∈ tokens →
      (∀ u ∈ tokens, normalizeValue u.value = normalizeValue t.value →
        u.name = t.name) →
      findMatchingToken t.value tokens = some t.name) :=
  ⟨findMatchingToken_eq_find? v tokens, findMatchingToken_self tokens t⟩

/-- Witness for the amended claim C8 at a one-token catalog. -/
theorem claim_C8_amended_witness :
    findMatchingToken "12px"
      [{ name := "a", value := "12px", category := "spacing" }] =
      some "a" :=
  (claim_C8_amended [{ name := "a", value := "12px", category := "spacing" }]
    { name := "a", value := "12px", category := "spacing" } "12px").2
    (by simp)
    (by
      intro u hu _
      simp only [List.mem_cons, List.not_mem_nil, or_false] at hu
      rw [hu])

/-- Claim C8 counterexample: a catalog with two tokens of equal stored
value 16px; looking up the second token by its own value returns the
first token, not the second, so exact lookup is not idempotent on every
catalog. -/
theorem claim_C8_counterexample :
    ({ name := "b", value := "16px", category := "typography" } :
      DesignToken) ∈
      ([{ name := "a", value := "16px", category := "spacing" },
        { name := "b", value := "16px", category := "typography" }] :
        List DesignToken) ∧
    findMatchingToken "16px"
      [{ name := "a", value := "16px", category := "spacing" },
       { name := "b", value := "16px", category := "typography" }] =
      some "a" ∧
    (some "a" : Option String) ≠ some "b" := by
  decide

/-- Claim C1: what the code actually does on the scenario input.  The
colour literal and the spacing literal are extracted and resolved, and
14px has no exact match; but the font-size literal 14px is never
extracted, because the font-size regex literal is written with a
doubled backslash and its value class cannot match a digit.  The
extraction therefore returns two values, not three. -/
theorem claim_C1_code_behavior :
    extractAllValues
      ".button \x7b background: #0066CC; padding: 16px; font-size: 14px; \x7d" =
      [{ type := CSSType.color, value := "#0066CC" },
       { type := CSSType.spacing, value := "16px",
         property := some "padding" }] ∧
    extractFontSizes
      ".button \x7b background: #0066CC; padding: 16px; font-size: 14px; \x7d" =
      [] ∧
    findMatchingToken "#0066CC"
      [{ name := "color-primary", value := "#0066CC", category := "color" },
       { name := "spacing-md", value := "16px", category := "spacing" }] =
      some "color-primary" ∧
    findMatchingToken "16px"
      [{ name := "color-primary", value := "#0066CC", category := "color" },
       { name := "spacing-md", value := "16px", category := "spacing" }] =
      some "spacing-md" ∧
    findMatchingToken "14px"
      [{ name := "color-primary", value := "#0066CC", category := "color" },
       { name := "spacing-md", value := "16px", category := "spacing" }] =
      none := by
  decide

/-- Claim C4: the validation-path suggestion names the first token of
the category-filtered catalog in catalog order whenever that filter is
non-empty, regardless of any numeric closeness, and reports that no
matching tokens were found when the filter is empty. -/
theorem claim_C4_first_fit (v : CSSValue) (tokens : List DesignToken) :
    (tokens.filter (categoryFits v.type) = [] →
      suggestTokenForValue v tokens = "No matching tokens found") ∧
    (∀ t rest, tokens.filter (categoryFits v.type) = t :: rest →
      suggestTokenForValue v tokens =
        "Consider using token: " ++ t.name ++ " (" ++ t.value ++ ")") := by
  constructor
  · intro h
    simp [suggestTokenForValue, h]
  · intro t rest h
    simp [suggestTokenForValue, h]

/-- Witness for claim C4: the first spacing token wins even though a
later spacing token matches the hard-coded value exactly. -/
theorem claim_C4_first_fit_witness :
    suggestTokenForValue { type := CSSType.spacing, value := "3px" }
      [{ name := "op-space-small", value := "12px", category := "spacing" },
       { name := "op-space-tiny", value := "3px", category := "spacing" }] =
      "Consider using token: op-space-small (12px)" :=
  (claim_C4_first_fit { type := CSSType.spacing, value := "3px" }
    [{ name := "op-space-small", value := "12px", category := "spacing" },
     { name := "op-space-tiny", value := "3px", category := "spacing" }]).2
    { name := "op-space-small", value := "12px", category := "spacing" }
    [{ name := "op-space-tiny", value := "3px", category := "spacing" }]
    (by decide)

/-- Claim C9: with autofix disabled the fixed code is character for
character the original input; suggestions are computed and counted but
no text is rewritten. -/
theorem claim_C9_no_rewrite (code : String) (tokens : List DesignToken) :
    (replaceHardCodedValues code tokens false).fixedCode = code := rfl

/-- Claim C10: the batch contrast operation returns the empty list when
the background token name has no catalog entry, for every gamma-decode
power function. -/
theorem claim_C10_empty (rpow : ℚ → ℚ) (backgroundToken : String)
    (tokens : List DesignToken)
    (h : tokens.find? (fun t => t.name == backgroundToken) = none) :
    checkAllCombinations rpow backgroundToken tokens = [] := by
  simp [checkAllCombinations, h]

/-- Witness for claim C10 on the empty catalog. -/
theorem claim_C10_empty_witness :
    checkAllCombinations id "missing" [] = [] :=
  claim_C10_empty id "missing" [] rfl

/-- Claim C6: the contrast check always returns a structured record;
when either token name is absent the record carries no contrast value,
passes is false and the recommendation is the token-not-found
diagnostic; when both resolve but the contrast is uncomputable the
record carries no contrast value, passes is false and the diagnostic
reason is reported; and the contrast is uncomputable exactly when one
of the two stored values fails colour parsing. -/
theorem claim_C6_diagnostics (rpow : ℚ → ℚ) (fg bg : String)
    (tokens : List DesignToken) :
    ((tokens.find? (fun t => t.name == fg) = none ∨
      tokens.find? (fun t => t.name == bg) = none) →
      checkTokenContrast rpow fg bg tokens =
        { foregroundToken := fg, backgroundToken := bg,
          foregroundValue := "", backgroundValue := "", contrast := none,
          passes := false, recommendation := "Token not found" }) ∧
    (∀ ft bt, tokens.find? (fun t => t.name == fg) = some ft →
      tokens.find? (fun t => t.name == bg) = some bt →
      checkContrast rpow ft.value bt.value = none →
      checkTokenContrast rpow fg bg tokens =
        { foregroundToken := fg, backgroundToken := bg,
          foregroundValue := ft.value, backgroundValue := bt.value,
          contrast := none, passes := false,
          recommendation :=
            "Unable to calculate contrast (non-color tokens?)" }) ∧
    (∀ x y, checkContrast rpow x y = none ↔
      (parseColor x = none ∨ parseColor y = none)) := by
  refine ⟨?_, ?_, ?_⟩
  · intro h
    rcases h with h | h
    · simp [checkTokenContrast, h]
    · cases hf : tokens.find? (fun t => t.name == fg) <;>
        simp [checkTokenContrast, h, hf]
  · intro ft bt h1 h2 h3
    simp [checkTokenContrast, h1, h2, h3]
  · intro x y
    cases px : parseColor x <;> cases py : parseColor y <;>
      simp [checkContrast, getContrastRatio, px, py]

/-- Witness for claim C6 on the empty catalog: both lookups fail and
the structured token-not-found record is returned. -/
theorem claim_C6_diagnostics_witness :
    checkTokenContrast (fun _ => 0) "a" "b" [] =
      { foregroundToken := "a", backgroundToken := "b",
        foregroundValue := "", backgroundValue := "", contrast := none,
        passes := false, recommendation := "Token not found" } :=
  (claim_C6_diagnostics (fun _ => 0) "a" "b" []).1 (Or.inl rfl)

lemma hslFromRgbQ_FF0001 : hslFromRgbQ 255 0 1 = (360, 100, 50) := by
  unfold hslFromRgbQ jsRound
  norm_num [max_def, min_def, Int.floor_eq_iff]

/-- Claim C2 counterexample: the valid six-digit hex colour FF0001 is
converted to a hue of exactly 360 degrees, outside the half-open range
claimed: Math.round carries 359.76 degrees up to 360 rather than
wrapping to zero. -/
theorem claim_C2_counterexample :
    hexDigits6 "#FF0001" ∧
    hexToHSL "#FF0001" = some (360, 100, 50) ∧ ¬ ((360 : ℤ) < 360) := by
  refine ⟨⟨'F', 'F', '0', '0', '0', '1', Or.inr rfl, by decide⟩, ?_, by decide⟩
  have h1 : hexToHSL "#FF0001" = some (hslFromRgbQ 255 0 1) := rfl
  rw [h1, hslFromRgbQ_FF0001]

/-- Claim C2 (amended): for every valid six-digit hex colour the HSL
triple has an integer hue in the closed range from 0 to 360 (360 is
attainable by rounding), a saturation percentage from 0 to 100, and a
lightness percentage from 0 to 100. -/
theorem claim_C2_amended (s : String) (h : hexDigits6 s) :
    ∃ hu sa li : ℤ, hexToHSL s = some (hu, sa, li) ∧
      0 ≤ hu ∧ hu ≤ 360 ∧ 0 ≤ sa ∧ sa ≤ 100 ∧ 0 ≤ li ∧ li ≤ 100 := by
  obtain ⟨r, g, b, hch, hr, hg, hb⟩ := hexChannels_of_hexDigits6 h
  have hx : hexToHSL s = some (hslFromRgbQ (r : ℤ) (g : ℤ) (b : ℤ)) := by
    unfold hexToHSL
    rw [hch]
  have hbounds := hslFromRgbQ_bounds (r : ℤ) (g : ℤ) (b : ℤ)
    (by exact_mod_cast Nat.zero_le r) (by exact_mod_cast hr)
    (by exact_mod_cast Nat.zero_le g) (by exact_mod_cast hg)
    (by exact_mod_cast Nat.zero_le b) (by exact_mod_cast hb)
  refine ⟨(hslFromRgbQ (r : ℤ) (g : ℤ) (b : ℤ)).1,
    (hslFromRgbQ (r : ℤ) (g : ℤ) (b : ℤ)).2.1,
    (hslFromRgbQ (r : ℤ) (g : ℤ) (b : ℤ)).2.2, ?_, hbounds.1, hbounds.2.1,
    hbounds.2.2.1, hbounds.2.2.2.1, hbounds.2.2.2.2.1, hbounds.2.2.2.2.2⟩
  rw [hx]

/-- Witness for the amended claim C2 at the default primary brand
colour. -/
theorem claim_C2_amended_witness :
    ∃ hu sa li : ℤ, hexToHSL "#2D6FDB" = some (hu, sa, li) ∧
      0 ≤ hu ∧ hu ≤ 360 ∧ 0 ≤ sa ∧ sa ≤ 100 ∧ 0 ≤ li ∧ li ≤ 100 :=
  claim_C2_amended "#2D6FDB"
    ⟨'2', 'D', '6', 'F', 'D', 'B', Or.inr rfl, by decide⟩

lemma stripLeadHash_of_ne {c : Char} (hc : c ≠ '#') (l : List Char) :
    stripLeadHash (c :: l) = c :: l := by
  unfold stripLeadHash
  split
  · next rest heq =>
    injection heq with h1 _
    exact absurd h1 hc
  · rfl

/-- Claim C5 (amended): hexToRgb accepts every fully valid 3- or
6-digit hex string, with or without the leading hash, yielding channels
from 0 to 255; it returns none whenever the hash-stripped length is
neither 3 nor 6; but a group whose parseInt merely starts with a sign
or hex digit is accepted with its prefix value, so some inputs with
non-hex characters are coerced instead of rejected (see the
counterexample). -/
theorem claim_C5_amended (s : String) :
    (hexDigits6 s → ∃ r g b : ℕ, hexToRgb s =
      some { r := (r : ℤ), g := (g : ℤ), b := (b : ℤ) } ∧
      r ≤ 255 ∧ g ≤ 255 ∧ b ≤ 255) ∧
    (hexDigits3 s → ∃ r g b : ℕ, hexToRgb s =
      some { r := (r : ℤ), g := (g : ℤ), b := (b : ℤ) } ∧
      r ≤ 255 ∧ g ≤ 255 ∧ b ≤ 255) ∧
    ((stripLeadHash s.data).length ≠ 3 →
      (stripLeadHash s.data).length ≠ 6 → hexToRgb s = none) := by
  refine ⟨?_, ?_, ?_⟩
  · intro h
    obtain ⟨c1, c2, c3, c4, c5, c6, hshape, hall⟩ := h
    simp only [List.all_cons, List.all_nil, Bool.and_eq_true, Bool.and_true]
      at hall
    obtain ⟨h1, h2, h3, h4, h5, h6⟩ := hall
    have hstrip : stripLeadHash s.data = [c1, c2, c3, c4, c5, c6] := by
      rcases hshape with hs | hs
      · rw [hs]
        exact stripLeadHash_of_ne (ne_of_hex h1 (by decide)) _
      · rw [hs]
        rfl
    have h63 : (([c1, c2, c3, c4, c5, c6] : List Char).length == 3) = false :=
      rfl
    have h66 : (([c1, c2, c3, c4, c5, c6] : List Char).length == 6) = true :=
      rfl
    refine ⟨16 * hexVal c1 + hexVal c2, 16 * hexVal c3 + hexVal c4,
      16 * hexVal c5 + hexVal c6, ?_, ?_, ?_, ?_⟩
    · simp only [hexToRgb, hstrip, h63, h66, Bool.false_eq_true, if_false,
        if_true, List.take_succ_cons, List.take_zero, List.drop_succ_cons,
        List.drop_zero, parseIntHex_hexPair h1 h2, parseIntHex_hexPair h3 h4,
        parseIntHex_hexPair h5 h6]
    · have := hexVal_le_15 h1
      have := hexVal_le_15 h2
      omega
    · have := hexVal_le_15 h3
      have := hexVal_le_15 h4
      omega
    · have := hexVal_le_15 h5
      have := hexVal_le_15 h6
      omega
  · intro h
    obtain ⟨c1, c2, c3, hshape, hall⟩ := h
    simp only [List.all_cons, List.all_nil, Bool.and_eq_true, Bool.and_true]
      at hall
    obtain ⟨h1, h2, h3⟩ := hall
    have hstrip : stripLeadHash s.data = [c1, c2, c3] := by
      rcases hshape with hs | hs
      · rw [hs]
        exact stripLeadHash_of_ne (ne_of_hex h1 (by decide)) _
      · rw [hs]
        rfl
    have h33 : (([c1, c2, c3] : List Char).length == 3) = true := rfl
    have hdb : ((([c1, c2, c3] : List Char).map (fun c => [c, c])).flatten) =
      [c1, c1, c2, c2, c3, c3] := rfl
    have h66 : (([c1, c1, c2, c2, c3, c3] : List Char).length == 6) = true :=
      rfl
    refine ⟨16 * hexVal c1 + hexVal c1, 16 * hexVal c2 + hexVal c2,
      16 * hexVal c3 + hexVal c3, ?_, ?_, ?_, ?_⟩
    · simp only [hexToRgb, hstrip, h33, if_true, hdb, h66,
        List.take_succ_cons, List.take_zero, List.drop_succ_cons,
        List.drop_zero, parseIntHex_hexPair h1 h1, parseIntHex_hexPair h2 h2,
        parseIntHex_hexPair h3 h3]
    · have := hexVal_le_15 h1
      omega
    · have := hexVal_le_15 h2
      omega
    · have := hexVal_le_15 h3
      omega
  · intro h3 h6
    have e3 : ((stripLeadHash s.data).length == 3) = false :=
      beq_eq_false_iff_ne.mpr h3
    have e6 : ((stripLeadHash s.data).length == 6) = false :=
      beq_eq_false_iff_ne.mpr h6
    simp only [hexToRgb, e3, e6, Bool.false_eq_true, if_false]

/-- Witness for the amended claim C5: the six-digit form of the scenario
colour parses with channels within range. -/
theorem claim_C5_amended_witness :
    ∃ r g b : ℕ, hexToRgb "#0066CC" =
      some { r := (r : ℤ), g := (g : ℤ), b := (b : ℤ) } ∧
      r ≤ 255 ∧ g ≤ 255 ∧ b ≤ 255 :=
  (claim_C5_amended "#0066CC").1
    ⟨'0', '0', '6', '6', 'C', 'C', Or.inr rfl, by decide⟩

/-- Claim C5 counterexample: the input 0z0000 contains the non-hex
character z, yet hexToRgb silently coerces it to the colour with all
channels zero instead of failing: parseInt with radix 16 keeps the
parsed prefix 0 of the group 0z. -/
theorem claim_C5_counterexample :
    ('z' ∈ "0z0000".data ∧ isHexDigitChar 'z' = false) ∧
    hexToRgb "0z0000" = some { r := 0, g := 0, b := 0 } := by
  decide

lemma hslEval_0000FF : hexToHSL "#0000FF" = some (240, 100, 50) := by
  have h : hexToHSL "#0000FF" = some (hslFromRgbQ 0 0 255) := rfl
  have h2 : hslFromRgbQ 0 0 255 = (240, 100, 50) := by
    unfold hslFromRgbQ jsRound
    norm_num [max_def, min_def, Int.floor_eq_iff]
  rw [h, h2]

lemma hslEval_757882 : hexToHSL "#757882" = some (226, 5, 48) := by
  have h : hexToHSL "#757882" = some (hslFromRgbQ 117 120 130) := rfl
  have h2 : hslFromRgbQ 117 120 130 = (226, 5, 48) := by
    unfold hslFromRgbQ jsRound
    norm_num [max_def, min_def, Int.floor_eq_iff]
  rw [h, h2]

lemma hslEval_FFD93D : hexToHSL "#FFD93D" = some (48, 100, 62) := by
  have h : hexToHSL "#FFD93D" = some (hslFromRgbQ 255 217 61) := rfl
  have h2 : hslFromRgbQ 255 217 61 = (48, 100, 62) := by
    unfold hslFromRgbQ jsRound
    norm_num [max_def, min_def, Int.floor_eq_iff]
  rw [h, h2]

lemma hslEval_FF6B94 : hexToHSL "#FF6B94" = some (343, 100, 71) := by
  have h : hexToHSL "#FF6B94" = some (hslFromRgbQ 255 107 148) := rfl
  have h2 : hslFromRgbQ 255 107 148 = (343, 100, 71) := by
    unfold hslFromRgbQ jsRound
    norm_num [max_def, min_def, Int.floor_eq_iff]
  rw [h, h2]

lemma hslEval_2D6FDB : hexToHSL "#2D6FDB" = some (217, 71, 52) := by
  have h : hexToHSL "#2D6FDB" = some (hslFromRgbQ 45 111 219) := rfl
  have h2 : hslFromRgbQ 45 111 219 = (217, 71, 52) := by
    unfold hslFromRgbQ jsRound
    norm_num [max_def, min_def, Int.floor_eq_iff]
  rw [h, h2]

lemma hslEval_6ACF71 : hexToHSL "#6ACF71" = some (124, 51, 61) := by
  have h : hexToHSL "#6ACF71" = some (hslFromRgbQ 106 207 113) := rfl
  have h2 : hslFromRgbQ 106 207 113 = (124, 51, 61) := by
    unfold hslFromRgbQ jsRound
    norm_num [max_def, min_def, Int.floor_eq_iff]
  rw [h, h2]

lemma mem_of_ite_nil {x : α} : ∀ {b : Bool} {l : List α},
    x ∈ (if b = true then ([] : List α) else l) → x ∈ l := by
  intro b l h
  cases b
  · simpa using h
  · simp at h

lemma mem_familyTokens_name {x : DesignToken} {f hx : String}
    (h : x ∈ familyTokens f hx) :
    x.name = "op-color-" ++ f ++ "-h" ∨ x.name = "op-color-" ++ f ++ "-s" ∨
      x.name = "op-color-" ++ f ++ "-l" := by
  cases hm : hexToHSL hx with
  | none =>
    simp only [familyTokens, hm, List.mem_cons, List.not_mem_nil, or_false]
      at h
    rcases h with rfl | rfl | rfl <;> simp
  | some p =>
    obtain ⟨ph, ps, pl⟩ := p
    simp only [familyTokens, hm, List.mem_cons, List.not_mem_nil, or_false]
      at h
    rcases h with rfl | rfl | rfl <;> simp

lemma mem_generateColorTokens_name {x : DesignToken} {bc : BrandColors}
    (h : x ∈ generateColorTokens bc) : x.name ∈ baseHSLNames := by
  simp only [generateColorTokens, List.mem_append] at h
  rcases h with ((((h | h) | h) | h) | h) | h <;>
    (rcases mem_familyTokens_name (mem_of_ite_nil h) with he | he | he <;>
      (rw [he]; decide))

/-- Claim C7 (amended): when at least one brand colour override is
supplied, theme assembly maps every catalog token through a by-name
swap against the generated base HSL tokens; every token whose name is
not one of the eighteen base HSL names (in particular every non-colour
token) is returned unchanged.  The eighteen base HSL tokens of all six
families are regenerated, the overridden families from their supplied
hex and the others from the built-in default hexes, whose derived
values may differ from the catalog (see the counterexample). -/
theorem claim_C7_amended (bc : BrandColors) (h : bc.hasAnyKey = true) :
    (generateThemeTokens bc = designTokens.map (fun t =>
      ((generateColorTokens bc).find? (fun ct => ct.name == t.name)).getD
        t)) ∧
    (∀ t : DesignToken, t.name ∉ baseHSLNames →
      ((generateColorTokens bc).find? (fun ct => ct.name == t.name)).getD t =
        t) := by
  constructor
  · simp [generateThemeTokens, h]
  · intro t ht
    have hfind : (generateColorTokens bc).find?
        (fun ct => ct.name == t.name) = none := by
      rw [List.find?_eq_none]
      intro x hx
      simp only [beq_eq_false_iff_ne, ne_eq, Bool.not_eq_true]
      intro heq
      exact ht (heq ▸ mem_generateColorTokens_name hx)
    rw [hfind]
    rfl

/-- Witness for the amended claim C7: a spacing token passes through
theme assembly unchanged when the primary colour is overridden. -/
theorem claim_C7_amended_witness :
    ((generateColorTokens { primary := some "#0000FF" }).find?
      (fun ct => ct.name == "op-space-small")).getD
      { name := "op-space-small",
        value := "calc(var(--op-space-scale-unit) * 1.2)",
        category := "spacing", description := some "12px spacing" } =
      { name := "op-space-small",
        value := "calc(var(--op-space-scale-unit) * 1.2)",
        category := "spacing", description := some "12px spacing" } :=
  (claim_C7_amended { primary := some "#0000FF" } rfl).2
    { name := "op-space-small",
      value := "calc(var(--op-space-scale-unit) * 1.2)",
      category := "spacing", description := some "12px spacing" }
    (by decide)

set_option maxHeartbeats 2000000 in
/-- Claim C7 counterexample: overriding only the primary colour still
rewrites the neutral family: the emitted op-color-neutral-s token has
value 5 percent (derived from the built-in default hex 757882) while
the static catalog stores 4 percent — a family without an override does
not keep the catalog value. -/
theorem claim_C7_counterexample :
    (({ primary := some "#0000FF" } : BrandColors).neutral = none) ∧
    (({ primary := some "#0000FF" } : BrandColors).hasAnyKey = true) ∧
    (((generateThemeTokens { primary := some "#0000FF" }).find?
        (fun t => t.name == "op-color-neutral-s")).map DesignToken.value =
      some "5%") ∧
    ((designTokens.find? (fun t => t.name == "op-color-neutral-s")).map
        DesignToken.value = some "4%") := by
  refine ⟨rfl, rfl, ?_, by decide⟩
  have e1 : (("#0000FF" : String) == "") = false := rfl
  have e2 : (("#757882" : String) == "") = false := rfl
  have e3 : (("#FFD93D" : String) == "") = false := rfl
  have e4 : (("#FF6B94" : String) == "") = false := rfl
  have e5 : (("#2D6FDB" : String) == "") = false := rfl
  have e6 : (("#6ACF71" : String) == "") = false := rfl
  have hkey : ({ primary := some "#0000FF" } : BrandColors).hasAnyKey =
      true := rfl
  have hthm : generateThemeTokens { primary := some "#0000FF" } =
      designTokens.map (fun t =>
        ((generateColorTokens { primary := some "#0000FF" }).find?
          (fun ct => ct.name == t.name)).getD t) := by
    simp [generateThemeTokens, hkey]
  rw [hthm]
  simp only [generateColorTokens, Option.getD_some, Option.getD_none, e1,
    e2, e3, e4, e5, e6, Bool.false_eq_true, if_false, familyTokens,
    hslEval_0000FF, hslEval_757882, hslEval_FFD93D, hslEval_FF6B94,
    hslEval_2D6FDB, hslEval_6ACF71]
  decide

end OCS
